import Mathlib

/-!
Verification development for the flickr-archive-metadata repository
(`src/flickr_client.py`, `src/downloader.py`).

The Python code is shallowly embedded: JSON-like Python values become the
inductive `PyVal`; fallible Python operations (`d[k]`, `int(x)`, iteration)
become `Except String`-valued functions; the remote transport is an
attempt-indexed oracle `Nat → Except PyExc PyVal`; the side effects of
`process_photo` (fetches, file writes, binary downloads, sleeps, the
completion marker) are recorded as an explicit `Act` trace.
-/

set_option maxRecDepth 4096

/-- A Python value as used by the program: JSON-ish data returned by the
flickrapi transport and manipulated with `dict.get`, subscripts, `int()`,
truthiness and iteration.  Dicts are association lists (the program never
relies on key order or duplicate keys). -/
inductive PyVal where
  | vNull
  | vBool (b : Bool)
  | vInt (n : Int)
  | vStr (s : String)
  | vList (xs : List PyVal)
  | vDict (xs : List (String × PyVal))

open PyVal

/-- Lookup in a dict's association list (`k in d` / `d[k]` / `d.get(k)`). -/
def dictEntriesGet : List (String × PyVal) → String → Option PyVal
  | [], _ => none
  | (k, v) :: rest, key => if k = key then some v else dictEntriesGet rest key

/-- `dictLookup d k`: `some v` when `d` is a dict containing key `k`. -/
def dictLookup : PyVal → String → Option PyVal
  | .vDict d, k => dictEntriesGet d k
  | _, _ => none

/-- Replace (or append) a key in a dict's association list: `d[k] = v`. -/
def setEntry : List (String × PyVal) → String → PyVal → List (String × PyVal)
  | [], k, v => [(k, v)]
  | (k0, v0) :: rest, k, v =>
    if k0 = k then (k0, v) :: rest else (k0, v0) :: setEntry rest k v

/-- Python dict assignment `d[k] = v`.  The program only ever assigns into
values it built as dicts, so non-dict receivers are left unchanged. -/
def dictSet : PyVal → String → PyVal → PyVal
  | .vDict d, k, v => .vDict (setEntry d k v)
  | x, _, _ => x

/-- Python truthiness (`if x:`). -/
def pyTruthy : PyVal → Bool
  | .vNull => false
  | .vBool b => b
  | .vInt n => n != 0
  | .vStr s => s != ""
  | .vList l => !l.isEmpty
  | .vDict d => !d.isEmpty

/-- Python `==` as the program uses it: scalar comparisons against string
literals (plus the bool/int identification).  The program never compares
two containers, so those compare unequal here. -/
def pyEqB : PyVal → PyVal → Bool
  | .vStr a, .vStr b => a == b
  | .vInt a, .vInt b => a == b
  | .vBool a, .vBool b => a == b
  | .vBool a, .vInt b => (if a then (1 : Int) else 0) == b
  | .vInt a, .vBool b => a == (if b then (1 : Int) else 0)
  | .vNull, .vNull => true
  | _, _ => false

/-- Python `str(x)` for the values interpolated into the program's f-strings. -/
def pyStr : PyVal → String
  | .vNull => "None"
  | .vBool b => if b then "True" else "False"
  | .vInt n => toString n
  | .vStr s => s
  | .vList _ => "[...]"
  | .vDict _ => "\x7b...\x7d"

/-- Whether `needle` occurs as a prefix. -/
def listPrefixOf : List Char → List Char → Bool
  | [], _ => true
  | _ :: _, [] => false
  | a :: as, b :: bs => a == b && listPrefixOf as bs

/-- Whether `needle` occurs anywhere in the character list. -/
def listSubOf (needle : List Char) : List Char → Bool
  | [] => listPrefixOf needle []
  | c :: rest => listPrefixOf needle (c :: rest) || listSubOf needle rest

/-- Python `needle in hay` on strings (substring containment). -/
def strContains (hay needle : String) : Bool :=
  listSubOf needle.toList hay.toList

/-- Python `s.split(c)` for a single-character separator. -/
def splitOnChar (c : Char) : List Char → List (List Char)
  | [] => [[]]
  | x :: rest =>
    let r := splitOnChar c rest
    if x == c then [] :: r
    else
      match r with
      | [] => [[x]]
      | h :: t => (x :: h) :: t

/-- `d.get(k, default)`: raises `AttributeError` when the receiver is not a
dict, otherwise total. -/
def pyGetD : PyVal → String → PyVal → Except String PyVal
  | .vDict d, k, dflt =>
    .ok (match dictEntriesGet d k with | some v => v | none => dflt)
  | _, _, _ => .error "AttributeError"

/-- `d.get(k)` (default `None`). -/
def pyGet (v : PyVal) (k : String) : Except String PyVal :=
  pyGetD v k .vNull

/-- Subscript `d[k]`: `KeyError` when the key is missing, `TypeError` when
the receiver is not a dict. -/
def pySub : PyVal → String → Except String PyVal
  | .vDict d, k =>
    match dictEntriesGet d k with
    | some v => .ok v
    | none => .error "KeyError"
  | _, _ => .error "TypeError"

/-- `k in v` for a string key: membership test on dicts/lists/strings. -/
def pyIn (k : String) : PyVal → Except String Bool
  | .vDict d => .ok (dictEntriesGet d k).isSome
  | .vList l => .ok (l.any (pyEqB (.vStr k)))
  | .vStr s => .ok (strContains s k)
  | _ => .error "TypeError"

/-- Iterating a Python value (`for x in v`). -/
def pyIter : PyVal → Except String (List PyVal)
  | .vList l => .ok l
  | .vDict d => .ok (d.map (fun p => PyVal.vStr p.1))
  | .vStr s => .ok (s.toList.map (fun c => PyVal.vStr (String.mk [c])))
  | _ => .error "TypeError"

/-- Digits of a decimal numeral, `none` on the empty list or a non-digit. -/
def digitsToNat (l : List Char) : Option Nat :=
  if l.isEmpty then none
  else
    l.foldl
      (fun acc c =>
        match acc with
        | none => none
        | some n => if c.isDigit then some (n * 10 + (c.toNat - 48)) else none)
      (some 0)

/-- Drop leading spaces. -/
def dropSpaces (l : List Char) : List Char := l.dropWhile (fun c => c == ' ')

/-- Strip spaces from both ends (the whitespace `int()` tolerates). -/
def trimChars (l : List Char) : List Char :=
  (dropSpaces (dropSpaces l).reverse).reverse

/-- Python `int(s)` on a string: optional sign, decimal digits, surrounding
whitespace allowed; `none` models `ValueError`. -/
def pyIntOfStr (s : String) : Option Int :=
  match trimChars s.toList with
  | '-' :: rest => (digitsToNat rest).map (fun n => -(n : Int))
  | '+' :: rest => (digitsToNat rest).map (fun n => (n : Int))
  | l => (digitsToNat l).map (fun n => (n : Int))

/-- Python `int(x)`: ints and bools convert, numeric strings parse,
`None` and containers raise `TypeError`, bad strings raise `ValueError`. -/
def pyInt : PyVal → Except String Int
  | .vInt n => .ok n
  | .vBool b => .ok (if b then 1 else 0)
  | .vStr s =>
    match pyIntOfStr s with
    | some n => .ok n
    | none => .error "ValueError"
  | .vNull => .error "TypeError"
  | .vList _ => .error "TypeError"
  | .vDict _ => .error "TypeError"

/-! ## The remote gateway (`src/flickr_client.py`)

The transport is an attempt-indexed oracle `Nat → Except PyExc PyVal`: the
value of `f n` is what the `flickr.*` RPC call would produce on its `n`-th
attempt.  This makes both a retried call (which consults `f 0`, `f 1`, …)
and a single un-retried call (which consults only `f 0`) expressible. -/

/-- An exception escaping a `flickr.*` call: either a
`flickrapi.exceptions.FlickrError` or any other exception. -/
inductive PyExc where
  | flickrError (msg : String)
  | otherExc (msg : String)

/-- The exception's message (`str(e)`). -/
def pyExcMsg : PyExc → String
  | .flickrError m => m
  | .otherExc m => m

/-- The transient-failure test of `retry_on_error`:
`'201' in str(e) or 'not currently available' in str(e)`. -/
def isTransientMsg (m : String) : Bool :=
  strContains m "201" || strContains m "not currently available"

/-- Loop of `retry_on_error` (`for attempt in range(3)`), with `fuel` the
remaining iterations; returns the back-off sleeps performed (in seconds)
and the final outcome.  The `fuel = 0` fallthrough models the dead
`return None` after the loop. -/
def retryGo (f : Nat → Except PyExc PyVal) :
    Nat → Nat → List Nat → List Nat × Except PyExc PyVal
  | 0, _, sleeps => (sleeps, .ok PyVal.vNull)
  | fuel + 1, attempt, sleeps =>
    match f attempt with
    | .ok v => (sleeps, .ok v)
    | .error (.flickrError m) =>
      if isTransientMsg m then
        -- max_retries = 3, so the guard is `attempt < 2`
        if attempt < 2 then retryGo f fuel (attempt + 1) (sleeps ++ [(attempt + 1) * 5])
        else (sleeps, .error (.flickrError m))
      else (sleeps, .error (.flickrError m))
    | .error (.otherExc m) =>
      if attempt < 2 then retryGo f fuel (attempt + 1) (sleeps ++ [2])
      else (sleeps, .error (.otherExc m))

/-- `retry_on_error(func)` applied to a transport behaviour: up to 3
attempts, transient FlickrErrors back off 5s then 10s, other exceptions
back off 2s flat, anything unrecovered propagates. -/
def retry_on_error (f : Nat → Except PyExc PyVal) : List Nat × Except PyExc PyVal :=
  retryGo f 3 0 []

/-- `get_photo_info`: a bare `flickr.photos.getInfo` call — one attempt,
failures propagate. -/
def get_photo_info (f : Nat → Except PyExc PyVal) : Except PyExc PyVal := f 0

/-- `get_photo_sizes`: bare call, one attempt, failures propagate. -/
def get_photo_sizes (f : Nat → Except PyExc PyVal) : Except PyExc PyVal := f 0

/-- `get_photos`: bare call, one attempt, failures propagate. -/
def get_photos (f : Nat → Except PyExc PyVal) : Except PyExc PyVal := f 0

/-- `get_favorites`: bare call, one attempt, failures propagate. -/
def get_favorites (f : Nat → Except PyExc PyVal) : Except PyExc PyVal := f 0

/-- `get_photosets`: bare call, one attempt, failures propagate. -/
def get_photosets (f : Nat → Except PyExc PyVal) : Except PyExc PyVal := f 0

/-- `get_photo_comments`: one attempt, any failure becomes
`{'comments': {'comment': []}}`. -/
def get_photo_comments (f : Nat → Except PyExc PyVal) : PyVal :=
  match f 0 with
  | .ok v => v
  | .error _ => .vDict [("comments", .vDict [("comment", .vList [])])]

/-- `get_photo_favorites`: one attempt, any failure becomes
`{'photo': {'person': []}}`. -/
def get_photo_favorites (f : Nat → Except PyExc PyVal) : PyVal :=
  match f 0 with
  | .ok v => v
  | .error _ => .vDict [("photo", .vDict [("person", .vList [])])]

/-- `get_photo_exif`: one attempt, any failure becomes
`{'photo': {'exif': []}}`. -/
def get_photo_exif (f : Nat → Except PyExc PyVal) : PyVal :=
  match f 0 with
  | .ok v => v
  | .error _ => .vDict [("photo", .vDict [("exif", .vList [])])]

/-- `get_photo_geo`: one attempt, any failure becomes `None`. -/
def get_photo_geo (f : Nat → Except PyExc PyVal) : PyVal :=
  match f 0 with
  | .ok v => v
  | .error _ => .vNull

/-- `get_photo_contexts`: one attempt, any failure becomes `{'set': []}`. -/
def get_photo_contexts (f : Nat → Except PyExc PyVal) : PyVal :=
  match f 0 with
  | .ok v => v
  | .error _ => .vDict [("set", .vList [])]

/-- `get_photo_stats`: one attempt, any failure becomes `None`. -/
def get_photo_stats (f : Nat → Except PyExc PyVal) : PyVal :=
  match f 0 with
  | .ok v => v
  | .error _ => .vNull

/-- `get_user_info`: one attempt, any failure becomes `None`. -/
def get_user_info (f : Nat → Except PyExc PyVal) : PyVal :=
  match f 0 with
  | .ok v => v
  | .error _ => .vNull

/-! ## The per-photo archival pipeline (`src/downloader.py`)

`process_photo` is embedded as a pure function from an environment (the
oracle answers for each remote operation, plus filesystem facts) to the
trace of observable side effects it performs, together with its outcome. -/

/-- One observable side effect of `process_photo` / the walkers.  (Named
`Act` because Mathlib already has an `Action`.) -/
inductive Act where
  | sleepRate                                -- time.sleep(RATE_DELAY)
  | sleepPost                                -- time.sleep(0.5)
  | fetchInfo                                -- get_photo_info(photo_id)
  | fetchGeo                                 -- get_photo_geo(photo_id)
  | fetchContexts                            -- get_photo_contexts(photo_id)
  | fetchComments                            -- get_photo_comments(photo_id)
  | fetchFavorites                           -- get_photo_favorites(photo_id)
  | fetchExif                                -- get_photo_exif(photo_id)
  | fetchSizes                               -- get_photo_sizes(photo_id)
  | fetchUserInfo (uid : PyVal)              -- get_user_info(user_id)
  | download (url : PyVal) (file : String)   -- download_photo(url, path)
  | writeFile (file : String) (content : PyVal)  -- save_json(data, path)
  | writeMarker (ts : String)                -- open('complete.flag','w').write(...)

/-- The process-lifetime `USER_CACHE` (keyed by the Python user-id value). -/
abbrev Cache := List (PyVal × PyVal)

/-- Cache lookup (`user_id not in USER_CACHE`). -/
def cacheGet : Cache → PyVal → Option PyVal
  | [], _ => none
  | (k, v) :: rest, key => if pyEqB k key then some v else cacheGet rest key

/-- Everything outside the function under analysis: the transport answers
for each remote operation (attempt-indexed, see the gateway model), the
filesystem facts the code branches on, and the library collaborators. -/
structure Env where
  /-- `os.path.exists(photo_dir/complete.flag)` -/
  markerExists : Bool
  /-- `open(path, 'w')` failing with an I/O error for the named file -/
  writeFails : String → Bool
  /-- whether `download_photo` succeeds for the named target file -/
  downloadOk : String → Bool
  infoCall : Nat → Except PyExc PyVal
  geoCall : Nat → Except PyExc PyVal
  contextsCall : Nat → Except PyExc PyVal
  commentsCall : Nat → Except PyExc PyVal
  favoritesCall : Nat → Except PyExc PyVal
  exifCall : Nat → Except PyExc PyVal
  sizesCall : Nat → Except PyExc PyVal
  userInfoCall : PyVal → Nat → Except PyExc PyVal
  /-- `datetime.fromtimestamp(n).isoformat()` -/
  isoFormat : Int → String
  /-- `datetime.now().isoformat()` -/
  nowIso : String

/-- The fixed placeholder avatar. -/
def placeholderAvatar : String := "https://www.flickr.com/images/buddyicon.gif"

/-- Body of `get_cached_user_info` on a cache miss: turn the
`get_user_info` result into a `USER_CACHE` entry (lines 27–62). -/
def buildUserEntry (ui uid : PyVal) : Except String PyVal := do
  let hasPerson ← (if pyTruthy ui then pyIn "person" ui else pure false)
  if hasPerson then do
    let person ← pySub ui "person"
    let iconserver ← pyGetD person "iconserver" (PyVal.vStr "0")
    let iconfarm ← pyGetD person "iconfarm" (PyVal.vStr "1")
    let nsid ← pyGetD person "nsid" (PyVal.vStr "")
    -- `if iconserver and int(iconserver) > 0:` (short-circuit, then int())
    let avatar ←
      (if pyTruthy iconserver then do
        let n ← pyInt iconserver
        pure (if 0 < n then
          PyVal.vStr ("https://farm" ++ pyStr iconfarm ++ ".staticflickr.com/"
            ++ pyStr iconserver ++ "/buddyicons/" ++ pyStr nsid ++ ".jpg")
        else PyVal.vStr placeholderAvatar)
      else pure (PyVal.vStr placeholderAvatar))
    let realnameO ← pyGetD person "realname" (PyVal.vDict [])
    let realname ← pyGetD realnameO "_content" (PyVal.vStr "")
    let usernameO ← pyGetD person "username" (PyVal.vDict [])
    let username ← pyGetD usernameO "_content" (PyVal.vStr "")
    let displayName := if pyTruthy realname then realname else username
    let ispro ← pyGetD person "ispro" (PyVal.vInt 0)
    let profileO ← pyGetD person "profileurl" (PyVal.vDict [])
    let profile ← pyGetD profileO "_content" (PyVal.vStr "")
    pure (PyVal.vDict [
      ("display_name", displayName), ("username", username),
      ("realname", realname), ("avatar_url", avatar),
      ("is_pro", ispro), ("profile_url", profile)])
  else
    -- fallback for users we can't fetch
    pure (PyVal.vDict [
      ("display_name", uid), ("username", uid),
      ("realname", PyVal.vStr ""),
      ("avatar_url", PyVal.vStr placeholderAvatar),
      ("is_pro", PyVal.vInt 0),
      ("profile_url", PyVal.vStr ("https://www.flickr.com/people/" ++ pyStr uid ++ "/"))])

/-- `get_cached_user_info(user_id)`: cache hit returns the entry with no
remote call; a miss calls `get_user_info` once and populates the cache. -/
def get_cached_user_info (env : Env) (cache : Cache) (uid : PyVal) :
    List Act × Cache × Except String PyVal :=
  match cacheGet cache uid with
  | some v => ([], cache, .ok v)
  | none =>
    let ui := get_user_info (env.userInfoCall uid)
    match buildUserEntry ui uid with
    | .error e => ([Act.fetchUserInfo uid], cache, .error e)
    | .ok entry => ([Act.fetchUserInfo uid], cache ++ [(uid, entry)], .ok entry)

/-- The tag comprehension `[tag['raw'] for tag in ...]`. -/
def tagsRaw : List PyVal → Except String (List PyVal)
  | [] => .ok []
  | t :: rest => do
    let r ← pySub t "raw"
    let rest' ← tagsRaw rest
    pure (r :: rest')

/-- The combined metadata dict of `process_photo` (lines 103–127), built
from the `get_photo_info` response, the listing entry `photo`, and the
photo id; evaluation order follows the Python dict literal. -/
def buildMetadata (info photo pid : PyVal) (is_favorite : Bool)
    (isoFormat : Int → String) : Except String PyVal := do
  let ip ← pySub info "photo"
  let titleO ← pyGetD ip "title" (PyVal.vDict [])
  let title ← pyGetD titleO "_content" (PyVal.vStr "")
  let descO ← pyGetD ip "description" (PyVal.vDict [])
  let desc ← pyGetD descO "_content" (PyVal.vStr "")
  let dateUp ← pyGetD ip "dateuploaded" (PyVal.vStr "")
  -- conditional expression: the `if` condition is evaluated first
  let dupCond ← pyGet ip "dateuploaded"
  let dateUpFmt ←
    (if pyTruthy dupCond then do
      let raw ← pyGetD ip "dateuploaded" (PyVal.vInt 0)
      let n ← pyInt raw
      pure (PyVal.vStr (isoFormat n))
    else pure PyVal.vNull)
  let datesO ← pyGetD ip "dates" (PyVal.vDict [])
  let taken ← pyGetD datesO "taken" (PyVal.vStr "")
  let tagsO ← pyGetD ip "tags" (PyVal.vDict [])
  let tagL ← pyGetD tagsO "tag" (PyVal.vList [])
  let tagItems ← pyIter tagL
  let tags ← tagsRaw tagItems
  let viewsV ← pyGetD ip "views" (PyVal.vInt 0)
  let views ← pyInt viewsV
  let owner ← pyGetD ip "owner" (PyVal.vDict [])
  let urlsO ← pyGetD ip "urls" (PyVal.vDict [])
  let urls ← pyGetD urlsO "url" (PyVal.vList [])
  let media ← pyGetD ip "media" (PyVal.vStr "photo")
  let sviewsV ← pyGetD ip "views" (PyVal.vInt 0)
  let sviews ← pyInt sviewsV
  let comO ← pyGetD ip "comments" (PyVal.vDict [])
  let comC ← pyGetD comO "_content" (PyVal.vInt 0)
  let comN ← pyInt comC
  let favV ← pyGetD ip "isfavorite" (PyVal.vInt 0)
  let favN ← pyInt favV
  let base := PyVal.vDict [
    ("id", pid), ("title", title), ("description", desc),
    ("date_uploaded", dateUp), ("date_uploaded_formatted", dateUpFmt),
    ("date_taken", taken), ("tags", PyVal.vList tags),
    ("views", PyVal.vInt views), ("owner", owner), ("urls", urls),
    ("location", PyVal.vNull), ("media", media),
    ("stats", PyVal.vDict [
      ("views", PyVal.vInt sviews), ("comments", PyVal.vInt comN),
      ("favorites", PyVal.vInt favN)])]
  if is_favorite then do
    let ownName ← pyGetD photo "ownername" (PyVal.vStr "")
    pure (dictSet base "owner_name" ownName)
  else pure base

/-- The geolocation step (lines 131–140): `some location-dict` when
`geo_data and 'photo' in geo_data`, `none` otherwise. -/
def buildLocation (geoData : PyVal) : Except String (Option PyVal) := do
  let c ← (if pyTruthy geoData then pyIn "photo" geoData else pure false)
  if c then do
    let gp ← pySub geoData "photo"
    let loc ← pySub gp "location"
    let lat ← pyGet loc "latitude"
    let lng ← pyGet loc "longitude"
    let acc ← pyGet loc "accuracy"
    let locality ← pyGetD loc "locality" (PyVal.vDict [])
    let county ← pyGetD loc "county" (PyVal.vDict [])
    let region ← pyGetD loc "region" (PyVal.vDict [])
    let country ← pyGetD loc "country" (PyVal.vDict [])
    pure (some (PyVal.vDict [
      ("latitude", lat), ("longitude", lng), ("accuracy", acc),
      ("locality", locality), ("county", county), ("region", region),
      ("country", country)]))
  else pure none

/-- Album entries of the contexts loop (lines 146–154). -/
def albumItems : List PyVal → Except String (List PyVal)
  | [] => .ok []
  | p :: rest => do
    let i ← pyGet p "id"
    let t ← pyGet p "title"
    let pr ← pyGet p "primary"
    let sec ← pyGet p "secret"
    let srv ← pyGet p "server"
    let fm ← pyGet p "farm"
    let rest' ← albumItems rest
    pure (PyVal.vDict [("id", i), ("title", t), ("primary", pr),
      ("secret", sec), ("server", srv), ("farm", fm)] :: rest')

/-- The album/photoset step (lines 144–155). -/
def buildAlbums (contexts : PyVal) : Except String (List PyVal) := do
  let c ← pyIn "set" contexts
  if c then do
    let sets ← pySub contexts "set"
    let items ← pyIter sets
    albumItems items
  else pure []

/-- The base comment dict of one loop iteration (lines 168–176), returning
the author id alongside. -/
def commentObjBase (c : PyVal) : Except String (PyVal × PyVal) := do
  let aid ← pyGet c "author"
  let cid ← pyGet c "id"
  let aname ← pyGet c "authorname"
  let dcreate ← pyGet c "datecreate"
  let plink ← pyGet c "permalink"
  let txt ← pyGetD c "_content" (PyVal.vStr "")
  pure (aid, PyVal.vDict [("id", cid), ("author", aid),
    ("author_name", aname), ("date_created", dcreate),
    ("permalink", plink), ("text", txt)])

/-- The user-info fields attached to a comment (lines 181–183). -/
def commentAttrs (ui : PyVal) : Except String (PyVal × PyVal × PyVal) := do
  let av ← pySub ui "avatar_url"
  let pro ← pySub ui "is_pro"
  let dn ← pySub ui "display_name"
  pure (av, pro, dn)

/-- The comment loop (lines 167–185): enrich each comment via
`get_cached_user_info` when it has an author, threading the cache and
recording the user-info fetches performed. -/
def commentsLoop (env : Env) : Cache → List PyVal →
    List Act × Cache × Except String (List PyVal)
  | cache, [] => ([], cache, .ok [])
  | cache, c :: rest =>
    match commentObjBase c with
    | .error e => ([], cache, .error e)
    | .ok (aid, obj) =>
      if pyTruthy aid then
        match get_cached_user_info env cache aid with
        | (acts, cache1, .error e) => (acts, cache1, .error e)
        | (acts, cache1, .ok ui) =>
          match commentAttrs ui with
          | .error e => (acts, cache1, .error e)
          | .ok (av, pro, dn) =>
            let obj2 := dictSet (dictSet (dictSet obj
              "author_avatar_url" av) "author_is_pro" pro) "author_display_name" dn
            match commentsLoop env cache1 rest with
            | (acts2, cache2, .error e) => (acts ++ acts2, cache2, .error e)
            | (acts2, cache2, .ok objs) => (acts ++ acts2, cache2, .ok (obj2 :: objs))
      else
        match commentsLoop env cache rest with
        | (acts2, cache2, .error e) => (acts2, cache2, .error e)
        | (acts2, cache2, .ok objs) => (acts2, cache2, .ok (obj :: objs))

/-- The comments step (lines 164–185): the guard
`'comments' in data and 'comment' in data['comments']` then the loop. -/
def parseComments (env : Env) (cache : Cache) (data : PyVal) :
    List Act × Cache × Except String (List PyVal) :=
  match pyIn "comments" data with
  | .error e => ([], cache, .error e)
  | .ok false => ([], cache, .ok [])
  | .ok true =>
    match pySub data "comments" with
    | .error e => ([], cache, .error e)
    | .ok cd =>
      match pyIn "comment" cd with
      | .error e => ([], cache, .error e)
      | .ok false => ([], cache, .ok [])
      | .ok true =>
        match pySub cd "comment" with
        | .error e => ([], cache, .error e)
        | .ok cl =>
          match pyIter cl with
          | .error e => ([], cache, .error e)
          | .ok items => commentsLoop env cache items

/-- The base favorite dict of one loop iteration (lines 193–198),
returning the nsid alongside. -/
def favObjBase (p : PyVal) : Except String (PyVal × PyVal) := do
  let nsid ← pyGet p "nsid"
  let uname ← pyGet p "username"
  let fdate ← pyGet p "favedate"
  pure (nsid, PyVal.vDict [("nsid", nsid), ("username", uname),
    ("favedate", fdate)])

/-- The user-info fields attached to a favorite (lines 203–207). -/
def favAttrs (ui : PyVal) :
    Except String (PyVal × PyVal × PyVal × PyVal × PyVal) := do
  let dn ← pySub ui "display_name"
  let rn ← pySub ui "realname"
  let av ← pySub ui "avatar_url"
  let pro ← pySub ui "is_pro"
  let pu ← pySub ui "profile_url"
  pure (dn, rn, av, pro, pu)

/-- The favorites loop (lines 192–209): one dict per favoriting person,
enriched via `get_cached_user_info` when an nsid is present. -/
def favesLoop (env : Env) : Cache → List PyVal →
    List Act × Cache × Except String (List PyVal)
  | cache, [] => ([], cache, .ok [])
  | cache, p :: rest =>
    match favObjBase p with
    | .error e => ([], cache, .error e)
    | .ok (nsid, obj) =>
      if pyTruthy nsid then
        match get_cached_user_info env cache nsid with
        | (acts, cache1, .error e) => (acts, cache1, .error e)
        | (acts, cache1, .ok ui) =>
          match favAttrs ui with
          | .error e => (acts, cache1, .error e)
          | .ok (dn, rn, av, pro, pu) =>
            let obj2 := dictSet (dictSet (dictSet (dictSet (dictSet obj
              "display_name" dn) "realname" rn) "avatar_url" av)
              "is_pro" pro) "profile_url" pu
            match favesLoop env cache1 rest with
            | (acts2, cache2, .error e) => (acts ++ acts2, cache2, .error e)
            | (acts2, cache2, .ok objs) => (acts ++ acts2, cache2, .ok (obj2 :: objs))
      else
        match favesLoop env cache rest with
        | (acts2, cache2, .error e) => (acts2, cache2, .error e)
        | (acts2, cache2, .ok objs) => (acts2, cache2, .ok (obj :: objs))

/-- The favorites step (lines 189–209): the guard
`'photo' in data and 'person' in data['photo']` then the loop. -/
def parseFavorites (env : Env) (cache : Cache) (data : PyVal) :
    List Act × Cache × Except String (List PyVal) :=
  match pyIn "photo" data with
  | .error e => ([], cache, .error e)
  | .ok false => ([], cache, .ok [])
  | .ok true =>
    match pySub data "photo" with
    | .error e => ([], cache, .error e)
    | .ok pd =>
      match pyIn "person" pd with
      | .error e => ([], cache, .error e)
      | .ok false => ([], cache, .ok [])
      | .ok true =>
        match pySub pd "person" with
        | .error e => ([], cache, .error e)
        | .ok pl =>
          match pyIter pl with
          | .error e => ([], cache, .error e)
          | .ok items => favesLoop env cache items

/-- EXIF entries of the loop (lines 216–221). -/
def exifItems : List PyVal → Except String (List PyVal)
  | [] => .ok []
  | i :: rest => do
    let tag ← pyGet i "tag"
    let lbl ← pyGet i "label"
    let rawO ← pyGetD i "raw" (PyVal.vDict [])
    let raw ← pyGetD rawO "_content" (PyVal.vStr "")
    let rest' ← exifItems rest
    pure (PyVal.vDict [("tag", tag), ("label", lbl), ("raw", raw)] :: rest')

/-- The EXIF step (lines 213–221): the guard
`'photo' in data and 'exif' in data['photo']` then the loop. -/
def parseExif (data : PyVal) : Except String (List PyVal) := do
  let c1 ← pyIn "photo" data
  if c1 then do
    let pd ← pySub data "photo"
    let c2 ← pyIn "exif" pd
    if c2 then do
      let el ← pySub pd "exif"
      let items ← pyIter el
      exifItems items
    else pure []
  else pure []

/-! ### Size selection -/

/-- Sort key of the non-video branch: `int(s.get('width', 0))`
(line 284). -/
def nonVideoKey (s : PyVal) : Except String Int :=
  match pyGetD s "width" (PyVal.vInt 0) with
  | .error e => .error e
  | .ok w => pyInt w

/-- Sort key of the video branch: `int(s.get('width') or 0)`
(line 245). -/
def videoKey (s : PyVal) : Except String Int :=
  match pyGet s "width" with
  | .error e => .error e
  | .ok w => pyInt (if pyTruthy w then w else PyVal.vInt 0)

/-- Decorate each size with its sort key; any key failure aborts (Python's
`sorted` computes every key up front). -/
def mapKeys (key : PyVal → Except String Int) :
    List PyVal → Except String (List (PyVal × Int))
  | [] => .ok []
  | s :: rest =>
    match key s with
    | .error e => .error e
    | .ok k =>
      match mapKeys key rest with
      | .error e => .error e
      | .ok ks => .ok ((s, k) :: ks)

/-- First element attaining the maximal key — exactly
`sorted(xs, key=…, reverse=True)[0]`, since Python's sort is stable. -/
def firstMaxGo (best : PyVal) (bk : Int) : List (PyVal × Int) → PyVal
  | [] => best
  | (a, k) :: rest => if bk < k then firstMaxGo a k rest else firstMaxGo best bk rest

/-- `sorted(xs, key=…, reverse=True)[0]` when the list is non-empty. -/
def firstMaxOpt : List (PyVal × Int) → Option PyVal
  | [] => none
  | (a, k) :: rest => some (firstMaxGo a k rest)

/-- The `label == 'Original'` scan (lines 275–278): first size labeled
Original; `size['label']` is a subscript, so a missing label raises. -/
def findOriginal : List PyVal → Except String (Option PyVal)
  | [] => .ok none
  | s :: rest =>
    match pySub s "label" with
    | .error e => .error e
    | .ok l =>
      if pyEqB l (PyVal.vStr "Original") then .ok (some s) else findOriginal rest

/-- Size selection of the non-video branch (lines 275–287): Original if
present, else the widest by `int(s.get('width', 0))`; `items` is the
iterated size list and `slv` the raw `sizes['sizes']['size']` value whose
truthiness is retested. -/
def selectOriginal (items : List PyVal) (slv : PyVal) :
    Except String (Option PyVal) :=
  match findOriginal items with
  | .error e => .error e
  | .ok (some o) => .ok (some o)
  | .ok none =>
    if pyTruthy slv then
      match mapKeys nonVideoKey items with
      | .error e => .error e
      | .ok keyed => .ok (firstMaxOpt keyed)
    else .ok none

/-- The extension whitelist test `ext not in ['jpg','jpeg','png','gif']`. -/
def isAllowedExt (e : List Char) : Bool :=
  if e = "jpg".toList then true
  else if e = "jpeg".toList then true
  else if e = "png".toList then true
  else if e = "gif".toList then true
  else false

/-- Extension parsing of lines 292–294:
`ext = photo_url.split('.')[-1].split('?')[0]`, then the whitelist with
default `jpg`.  Note the first split is over the whole URL. -/
def extFromUrl (url : String) : String :=
  let afterDot := (splitOnChar '.' url.toList).getLastD []
  let e := (splitOnChar '?' afterDot).headD []
  if isAllowedExt e then String.mk e else "jpg"

/-- The raw parsed token (before the whitelist) of `extFromUrl`. -/
def rawExtOf (url : String) : List Char :=
  (splitOnChar '?' ((splitOnChar '.' url.toList).getLastD [])).headD []

/-- Claim C7's parsing rule as the spec words it: strip the query string
first, take the final path segment, and read the extension after its last
dot (no dot → missing → default), then the same whitelist. -/
def extFromUrlSpecWords (url : String) : String :=
  let noQuery := (splitOnChar '?' url.toList).headD []
  let seg := (splitOnChar '/' noQuery).getLastD []
  let parts := splitOnChar '.' seg
  let e := if parts.length ≤ 1 then [] else parts.getLastD []
  if isAllowedExt e then String.mk e else "jpg"

/-- The photopage-URL loop of the video branch (lines 233–235). -/
def collectVideoUrls : List PyVal → Except String (List PyVal)
  | [] => .ok []
  | u :: rest => do
    let t ← pyGet u "type"
    let rest' ← collectVideoUrls rest
    if pyEqB t (PyVal.vStr "photopage") then do
      let c ← pyGet u "_content"
      pure (c :: rest')
    else pure rest'

/-- Video-page URL extraction (lines 231–235):
`if 'urls' in info['photo'] and 'url' in info['photo']['urls']`. -/
def videoUrlsOf (ip : PyVal) : Except String (List PyVal) := do
  let c1 ← pyIn "urls" ip
  if c1 then do
    let urlsO ← pySub ip "urls"
    let c2 ← pyIn "url" urlsO
    if c2 then do
      let ul ← pySub urlsO "url"
      let items ← pyIter ul
      collectVideoUrls items
    else pure []
  else pure []

/-- The fixed advisory text stored in `sizes.json` for videos. -/
def videoSizesNote : String := "Videos must be downloaded manually from Flickr"

/-- The fixed advisory text of the in-memory metadata augmentation. -/
def videoMetadataNote : String := "Video file must be downloaded manually from Flickr"

/-- The poster-frame part of the video branch (lines 242–253): when the
size list is truthy, sort by `int(s.get('width') or 0)` descending and
download the widest entry's source to `poster.jpg`. -/
def posterDownload (slv : PyVal) : List Act × Except String Unit :=
  if pyTruthy slv then
    match pyIter slv with
    | .error e => ([], .error e)
    | .ok items =>
      match mapKeys videoKey items with
      | .error e => ([], .error e)
      | .ok keyed =>
        match firstMaxOpt keyed with
        | none => ([], .ok ())
        | some thumb =>
          match pySub thumb "source" with
          | .error e => ([], .error e)
          | .ok src => ([Act.download src "poster.jpg"], .ok ())
  else ([], .ok ())

/-- The video branch of `process_photo` (lines 227–268): collect photopage
URLs, download the widest thumbnail as `poster.jpg`, persist `sizes.json`,
then augment the (already persisted) in-memory metadata.  Returns the
function's local `metadata` value as it stands afterwards. -/
def videoBranch (env : Env) (md ip : PyVal) : List Act × Except String PyVal :=
  match videoUrlsOf ip with
  | .error e => ([], .error e)
  | .ok vurls =>
    match get_photo_sizes env.sizesCall with
    | .error e => ([Act.fetchSizes], .error (pyExcMsg e))
    | .ok sizes =>
      match (do let ss ← pySub sizes "sizes"; pySub ss "size" :
          Except String PyVal) with
      | .error e => ([Act.fetchSizes], .error e)
      | .ok slv =>
        match posterDownload slv with
        | (ta, .error e) => (Act.fetchSizes :: ta, .error e)
        | (ta, .ok ()) =>
          if env.writeFails "sizes.json" then
            (Act.fetchSizes :: ta, .error "IOError")
          else
            let videoInfo := PyVal.vDict [
              ("is_video", PyVal.vBool true),
              ("video_urls", PyVal.vList vurls),
              ("note", PyVal.vStr videoSizesNote),
              ("all_sizes", slv)]
            let mdAug := dictSet md "video_info" (PyVal.vDict [
              ("download_note", PyVal.vStr videoMetadataNote),
              ("flickr_urls", PyVal.vList vurls)])
            (Act.fetchSizes :: ta ++ [Act.writeFile "sizes.json" videoInfo], .ok mdAug)

/-- The non-video branch of `process_photo` (lines 270–304): pick the
Original (or widest) size, download `original.{ext}`, persist `sizes.json`.
Returns the unchanged local `metadata` value. -/
def photoBranch (env : Env) (md : PyVal) : List Act × Except String PyVal :=
  match get_photo_sizes env.sizesCall with
  | .error e => ([Act.fetchSizes], .error (pyExcMsg e))
  | .ok sizes =>
    match (do let ss ← pySub sizes "sizes"; pySub ss "size" :
        Except String PyVal) with
    | .error e => ([Act.fetchSizes], .error e)
    | .ok slv =>
      match pyIter slv with
      | .error e => ([Act.fetchSizes], .error e)
      | .ok items =>
        match selectOriginal items slv with
        | .error e => ([Act.fetchSizes], .error e)
        | .ok none => ([Act.fetchSizes], .ok md)
        | .ok (some o) =>
          -- `if original:` — Python truthiness of the selected dict
          if pyTruthy o then
            match pySub o "source" with
            | .error e => ([Act.fetchSizes], .error e)
            | .ok src =>
              match src with
              | .vStr u =>
                let ext := extFromUrl u
                if env.writeFails "sizes.json" then
                  ([Act.fetchSizes, Act.download (PyVal.vStr u) ("original." ++ ext)],
                    .error "IOError")
                else
                  ([Act.fetchSizes, Act.download (PyVal.vStr u) ("original." ++ ext),
                    Act.writeFile "sizes.json" (PyVal.vDict [("original", o),
                      ("all_sizes", slv)])], .ok md)
              | _ => ([Act.fetchSizes], .error "AttributeError")
          else ([Act.fetchSizes], .ok md)

/-- Dispatch on `info['photo'].get('media', 'photo') == 'video'`
(line 225). -/
def sizesStage (env : Env) (md info : PyVal) : List Act × Except String PyVal :=
  match pySub info "photo" with
  | .error e => ([], .error e)
  | .ok ip =>
    match pyGetD ip "media" (PyVal.vStr "photo") with
    | .error e => ([], .error e)
    | .ok media =>
      if pyEqB media (PyVal.vStr "video") then videoBranch env md ip
      else photoBranch env md

/-- Steps 2–8 of the pipeline (fetch info … persist exif), i.e. lines
100–222: everything before the sizes branch.  On success the persisted
metadata value and the raw info response are returned for the sizes
stage. -/
def pipePreSizes (env : Env) (photo pid : PyVal) (is_favorite : Bool)
    (cache0 : Cache) : List Act × Cache × Except String (PyVal × PyVal) :=
  match get_photo_info env.infoCall with
  | .error e => ([Act.fetchInfo], cache0, .error (pyExcMsg e))
  | .ok info =>
    match buildMetadata info photo pid is_favorite env.isoFormat with
    | .error e => ([Act.fetchInfo], cache0, .error e)
    | .ok md0 =>
      match buildLocation (get_photo_geo env.geoCall) with
      | .error e => ([Act.fetchInfo, Act.fetchGeo], cache0, .error e)
      | .ok loc =>
        let md1 := match loc with
          | some l => dictSet md0 "location" l
          | none => md0
        match buildAlbums (get_photo_contexts env.contextsCall) with
        | .error e => ([Act.fetchInfo, Act.fetchGeo, Act.fetchContexts], cache0, .error e)
        | .ok albums =>
          let md2 := dictSet md1 "albums" (PyVal.vList albums)
          if env.writeFails "metadata.json" then
            ([Act.fetchInfo, Act.fetchGeo, Act.fetchContexts], cache0, .error "IOError")
          else
            let trM := [Act.fetchInfo, Act.fetchGeo, Act.fetchContexts,
              Act.writeFile "metadata.json" md2]
            match parseComments env cache0 (get_photo_comments env.commentsCall) with
            | (ca, c1, .error e) => (trM ++ Act.fetchComments :: ca, c1, .error e)
            | (ca, c1, .ok comments) =>
              if env.writeFails "comments.json" then
                (trM ++ Act.fetchComments :: ca, c1, .error "IOError")
              else
                let trC := trM ++ Act.fetchComments :: ca
                  ++ [Act.writeFile "comments.json" (PyVal.vList comments)]
                match parseFavorites env c1 (get_photo_favorites env.favoritesCall) with
                | (fa, c2, .error e) => (trC ++ Act.fetchFavorites :: fa, c2, .error e)
                | (fa, c2, .ok faves) =>
                  if env.writeFails "favorites.json" then
                    (trC ++ Act.fetchFavorites :: fa, c2, .error "IOError")
                  else
                    let trF := trC ++ Act.fetchFavorites :: fa
                      ++ [Act.writeFile "favorites.json" (PyVal.vList faves)]
                    match parseExif (get_photo_exif env.exifCall) with
                    | .error e => (trF ++ [Act.fetchExif], c2, .error e)
                    | .ok exif =>
                      if env.writeFails "exif.json" then
                        (trF ++ [Act.fetchExif], c2, .error "IOError")
                      else
                        (trF ++ [Act.fetchExif,
                          Act.writeFile "exif.json" (PyVal.vList exif)], c2,
                          .ok (md2, info))

/-- The pipeline body after the resumability check: steps 2–9.  On
success the local `metadata` value as it stands at line 305 (after the
video augmentation, if any) is returned. -/
def pipelineBody (env : Env) (photo pid : PyVal) (is_favorite : Bool)
    (cache0 : Cache) : List Act × Cache × Except String PyVal :=
  match pipePreSizes env photo pid is_favorite cache0 with
  | (tr, c, .error e) => (tr, c, .error e)
  | (tr, c, .ok (md, info)) =>
    match sizesStage env md info with
    | (tr2, .error e) => (tr ++ tr2, c, .error e)
    | (tr2, .ok mdF) => (tr ++ tr2, c, .ok mdF)

/-- `process_photo(photo, base_dir, is_favorite)` (lines 86–311):
`photo['id']`, the rate sleep, the completion-marker resumability check,
the pipeline body, the completion marker, the courtesy sleep.  The result
is the trace of effects, the final `USER_CACHE`, and the outcome. -/
def process_photo (env : Env) (photo : PyVal) (is_favorite : Bool)
    (cache0 : Cache) : List Act × Cache × Except String Unit :=
  match pySub photo "id" with
  | .error e => ([], cache0, .error e)
  | .ok pid =>
    match pid with
    | .vStr _ =>
      if env.markerExists then ([Act.sleepRate], cache0, .ok ())
      else
        match pipelineBody env photo pid is_favorite cache0 with
        | (tr, c, .error e) => (Act.sleepRate :: tr, c, .error e)
        | (tr, c, .ok _) =>
          if env.writeFails "complete.flag" then
            (Act.sleepRate :: tr, c, .error "IOError")
          else
            (Act.sleepRate :: tr ++ [Act.writeMarker env.nowIso, Act.sleepPost],
              c, .ok ())
    | _ =>
      -- os.path.join(base_dir, photo_id) with a non-string id raises
      ([Act.sleepRate], cache0, .error "TypeError")

/-- One iteration of the owned-photos loop of `download_my_photos`
(lines 329–335): ids already present as archive directories
(`processed_ids = set(os.listdir(PHOTOS_DIR))`) are skipped before the
pipeline is invoked. -/
def download_my_photos_step (processedIds : List String) (env : Env)
    (photo : PyVal) (cache0 : Cache) : List Act × Cache × Except String Unit :=
  match pySub photo "id" with
  | .error e => ([], cache0, .error e)
  | .ok pid =>
    if (match pid with
        | .vStr s => processedIds.contains s
        | _ => false) then
      ([], cache0, .ok ())
    else process_photo env photo false cache0

/-! ### Trace observations -/

/-- Is this the completion-marker write? -/
def Act.isMarkerB : Act → Bool
  | .writeMarker _ => true
  | _ => false

/-- Is this a binary download attempt? -/
def Act.isDownloadB : Act → Bool
  | .download _ _ => true
  | _ => false

/-- Is this a remote fetch? -/
def Act.isFetchB : Act → Bool
  | .fetchInfo | .fetchGeo | .fetchContexts | .fetchComments
  | .fetchFavorites | .fetchExif | .fetchSizes | .fetchUserInfo _ => true
  | _ => false

/-- Is this a user-info fetch? -/
def Act.isUserFetchB : Act → Bool
  | .fetchUserInfo _ => true
  | _ => false

/-- Does this action persist something on disk (file write, download, or
the completion marker)? -/
def Act.isPersistB : Act → Bool
  | .writeFile _ _ => true
  | .download _ _ => true
  | .writeMarker _ => true
  | _ => false

/-- Is this a `save_json` write of the named file? -/
def Act.writesNameB (name : String) : Act → Bool
  | .writeFile n _ => n == name
  | _ => false

/-- No completion marker anywhere in the trace. -/
def markerFree (l : List Act) : Bool := l.all (fun a => !a.isMarkerB)

/-- After any completion marker in the trace, nothing further is persisted:
the marker (when present) is the last persistence action. -/
def noWriteAfterMarker : List Act → Bool
  | [] => true
  | a :: rest =>
    (if a.isMarkerB then rest.all (fun b => !b.isPersistB) else true)
      && noWriteAfterMarker rest

/-- Content of the first `save_json` write of the named file in a trace. -/
def findWrite : List Act → String → Option PyVal
  | [], _ => none
  | Act.writeFile n c :: rest, name =>
    if n = name then some c else findWrite rest name
  | _ :: rest, name => findWrite rest name

/-- Did the computation succeed? -/
def isOkE : Except String Unit → Bool
  | .ok _ => true
  | .error _ => false

/-- The actions a pipeline stage before the sizes branch may emit: no
completion marker, no binary download, no `sizes.json` write. -/
def preSizesSafeB (a : Act) : Bool :=
  !a.isMarkerB && !a.isDownloadB && !(a.writesNameB "sizes.json")

/-! ### Concrete fixtures used by witnesses and counterexamples -/

/-- A transport that always fails with a non-Flickr exception. -/
def failCall : Nat → Except PyExc PyVal := fun _ => .error (.otherExc "boom")

/-- A transport that fails once and then succeeds. -/
def flakyOnce : Nat → Except PyExc PyVal := fun n =>
  match n with
  | 0 => .error (.otherExc "boom")
  | _ => .ok (PyVal.vInt 1)

/-- A transport that always fails with a transient FlickrError. -/
def transientAlways : Nat → Except PyExc PyVal :=
  fun _ => .error (.flickrError "Error 201: service not available")

/-- A minimal listing entry for one photo. -/
def photoW : PyVal := PyVal.vDict [("id", PyVal.vStr "12345")]

/-- A `getSizes` response with an empty size list. -/
def emptySizesResp : PyVal :=
  PyVal.vDict [("sizes", PyVal.vDict [("size", PyVal.vList [])])]

/-- Baseline environment: no marker, writes succeed, every remote call
fails. -/
def baseEnv : Env where
  markerExists := false
  writeFails := fun _ => false
  downloadOk := fun _ => true
  infoCall := failCall
  geoCall := failCall
  contextsCall := failCall
  commentsCall := failCall
  favoritesCall := failCall
  exifCall := failCall
  sizesCall := failCall
  userInfoCall := fun _ => failCall
  isoFormat := fun _ => "1970-01-01T00:00:00"
  nowIso := "2024-01-01T00:00:00"

/-- Environment whose photo already has a completion marker. -/
def envMarker : Env := { baseEnv with markerExists := true }

/-- A `getInfo` response with an empty photo record. -/
def infoMinimal : PyVal := PyVal.vDict [("photo", PyVal.vDict [])]

/-- Environment for a non-video photo whose size list is empty. -/
def env9 : Env := { baseEnv with
  infoCall := fun _ => .ok infoMinimal,
  sizesCall := fun _ => .ok emptySizesResp }

/-- A `getInfo` response for a video with one photopage URL. -/
def infoVideo : PyVal := PyVal.vDict [("photo", PyVal.vDict [
  ("media", PyVal.vStr "video"),
  ("urls", PyVal.vDict [("url", PyVal.vList [PyVal.vDict [
    ("type", PyVal.vStr "photopage"),
    ("_content", PyVal.vStr "https://www.flickr.com/photos/someone/12345/")]])])])]

/-- Environment for a video photo (empty size list, everything written). -/
def envVideo : Env := { baseEnv with
  infoCall := fun _ => .ok infoVideo,
  sizesCall := fun _ => .ok emptySizesResp }

/-- A `getInfo` response whose `isfavorite` flag is the given value. -/
def mkInfoFav (flag : Int) : PyVal := PyVal.vDict [("photo", PyVal.vDict [
  ("views", PyVal.vStr "5"),
  ("comments", PyVal.vDict [("_content", PyVal.vStr "1")]),
  ("isfavorite", PyVal.vInt flag)])]

/-- A `getFavorites` response with two favoriting users. -/
def favesTwoResp : PyVal := PyVal.vDict [("photo", PyVal.vDict [("person",
  PyVal.vList [
    PyVal.vDict [("nsid", PyVal.vStr "u1"), ("username", PyVal.vStr "alice"),
      ("favedate", PyVal.vStr "100")],
    PyVal.vDict [("nsid", PyVal.vStr "u2"), ("username", PyVal.vStr "bob"),
      ("favedate", PyVal.vStr "200")]])])]

/-- Environment for a photo not self-favorited but favorited by two other
users. -/
def env8 : Env := { baseEnv with
  infoCall := fun _ => .ok (mkInfoFav 0),
  favoritesCall := fun _ => .ok favesTwoResp,
  sizesCall := fun _ => .ok emptySizesResp }

/-- Environment family over the `isfavorite` flag value. -/
def env8fam (flag : Int) : Env := { baseEnv with
  infoCall := fun _ => .ok (mkInfoFav flag),
  sizesCall := fun _ => .ok emptySizesResp }

/-- A size entry whose declared width is the string `"abc"`. -/
def sizeWidthAbc : PyVal := PyVal.vDict [("width", PyVal.vStr "abc"),
  ("label", PyVal.vStr "Medium"),
  ("source", PyVal.vStr "https://live.staticflickr.com/1/1_m.jpg")]

/-- A `getSizes` response containing only `sizeWidthAbc`. -/
def sizesAbcResp : PyVal :=
  PyVal.vDict [("sizes", PyVal.vDict [("size", PyVal.vList [sizeWidthAbc])])]

/-- Environment for a video whose only size has a non-numeric width. -/
def envV10 : Env := { baseEnv with
  infoCall := fun _ => .ok infoVideo,
  sizesCall := fun _ => .ok sizesAbcResp }

/-- Sizes for the spec's fallback example (no Original, widths
800/1200/400). -/
def exSize800 : PyVal :=
  PyVal.vDict [("label", PyVal.vStr "Medium"), ("width", PyVal.vInt 800)]

/-- See `exSize800`. -/
def exSize1200 : PyVal :=
  PyVal.vDict [("label", PyVal.vStr "Large"), ("width", PyVal.vInt 1200)]

/-- See `exSize800`. -/
def exSize400 : PyVal :=
  PyVal.vDict [("label", PyVal.vStr "Small"), ("width", PyVal.vInt 400)]

/-- The spec's example size list. -/
def exampleSizes : List PyVal := [exSize800, exSize1200, exSize400]

/-- A size list containing an Original entry after a wider non-Original
one. -/
def originalSizes : List PyVal := [
  PyVal.vDict [("label", PyVal.vStr "Large"), ("width", PyVal.vInt 2000)],
  PyVal.vDict [("label", PyVal.vStr "Original"), ("width", PyVal.vInt 1024)]]

/-- Does this size carry the label `Original`? -/
def hasOriginalLabelB (s : PyVal) : Bool :=
  match pySub s "label" with
  | .ok l => pyEqB l (PyVal.vStr "Original")
  | .error _ => false

/-- Did a fallible computation succeed? -/
def exOk {α : Type} : Except String α → Bool
  | .ok _ => true
  | .error _ => false

/-- The `stats.favorites` field of the persisted `metadata.json`. -/
def statsFavoritesOf (tr : List Act) : Option PyVal :=
  match findWrite tr "metadata.json" with
  | some md =>
    match dictLookup md "stats" with
    | some st => dictLookup st "favorites"
    | none => none
  | none => none

/-- Number of entries in the persisted `favorites.json`. -/
def favoritesCountOf (tr : List Act) : Option Nat :=
  match findWrite tr "favorites.json" with
  | some (PyVal.vList l) => some l.length
  | _ => none

/-- The pipeline's final in-memory metadata, when it succeeded. -/
def okMetadataOf : Except String PyVal → Option PyVal
  | .ok m => some m
  | .error _ => none

/-- Metadata component of a successful pre-sizes result (`vNull` on
error); used to instantiate witnesses. -/
def preOkMd : Except String (PyVal × PyVal) → PyVal
  | .ok (m, _) => m
  | .error _ => PyVal.vNull

/-- Info component of a successful pre-sizes result (`vNull` on error). -/
def preOkInfo : Except String (PyVal × PyVal) → PyVal
  | .ok (_, i) => i
  | .error _ => PyVal.vNull

/-! ### Trace lemmas -/

theorem userFetch_preSizesSafe (a : Act) (h : a.isUserFetchB = true) :
    preSizesSafeB a = true := by
  cases a <;> simp_all [Act.isUserFetchB, preSizesSafeB, Act.isMarkerB,
    Act.isDownloadB, Act.writesNameB]

theorem all_preSizesSafe_of_userFetch (l : List Act)
    (h : l.all Act.isUserFetchB = true) : l.all preSizesSafeB = true := by
  rw [List.all_eq_true] at h ⊢
  exact fun a ha => userFetch_preSizesSafe a (h a ha)

theorem get_cached_user_info_userFetch (env : Env) (cache : Cache) (uid : PyVal) :
    (get_cached_user_info env cache uid).1.all Act.isUserFetchB = true := by
  unfold get_cached_user_info
  cases hc : cacheGet cache uid with
  | some v => rfl
  | none =>
    cases hb : buildUserEntry (get_user_info (env.userInfoCall uid)) uid with
    | error e => simp [hb, Act.isUserFetchB]
    | ok entry => simp [hb, Act.isUserFetchB]

theorem commentsLoop_userFetch (env : Env) (items : List PyVal) :
    ∀ cache, (commentsLoop env cache items).1.all Act.isUserFetchB = true := by
  induction items with
  | nil => intro cache; rfl
  | cons c rest ih =>
    intro cache
    unfold commentsLoop
    cases hobj : commentObjBase c with
    | error e => simp
    | ok p =>
      obtain ⟨aid, obj⟩ := p
      simp only
      by_cases haid : pyTruthy aid
      · simp only [haid, if_true]
        have hu := get_cached_user_info_userFetch env cache aid
        rcases hget : get_cached_user_info env cache aid with ⟨acts, cache1, r⟩
        rw [hget] at hu
        cases r with
        | error e => simpa using hu
        | ok ui =>
          cases hattr : commentAttrs ui with
          | error e => simp_all
          | ok t =>
            obtain ⟨av, pro, dn⟩ := t
            have hrest := ih cache1
            rcases hloop : commentsLoop env cache1 rest with ⟨acts2, cache2, r3⟩
            rw [hloop] at hrest
            cases r3 <;> simp_all [List.all_append]
      · simp only [haid, if_false]
        have hrest := ih cache
        rcases hloop : commentsLoop env cache rest with ⟨acts2, cache2, r3⟩
        rw [hloop] at hrest
        cases r3 <;> simp_all

theorem favesLoop_userFetch (env : Env) (items : List PyVal) :
    ∀ cache, (favesLoop env cache items).1.all Act.isUserFetchB = true := by
  induction items with
  | nil => intro cache; rfl
  | cons p rest ih =>
    intro cache
    unfold favesLoop
    cases hobj : favObjBase p with
    | error e => simp
    | ok q =>
      obtain ⟨nsid, obj⟩ := q
      simp only
      by_cases hn : pyTruthy nsid
      · simp only [hn, if_true]
        have hu := get_cached_user_info_userFetch env cache nsid
        rcases hget : get_cached_user_info env cache nsid with ⟨acts, cache1, r⟩
        rw [hget] at hu
        cases r with
        | error e => simpa using hu
        | ok ui =>
          cases hattr : favAttrs ui with
          | error e => simp_all
          | ok t =>
            obtain ⟨dn, rn, av, pro, pu⟩ := t
            have hrest := ih cache1
            rcases hloop : favesLoop env cache1 rest with ⟨acts2, cache2, r3⟩
            rw [hloop] at hrest
            cases r3 <;> simp_all [List.all_append]
      · simp only [hn, if_false]
        have hrest := ih cache
        rcases hloop : favesLoop env cache rest with ⟨acts2, cache2, r3⟩
        rw [hloop] at hrest
        cases r3 <;> simp_all

theorem parseComments_userFetch (env : Env) (cache : Cache) (data : PyVal) :
    (parseComments env cache data).1.all Act.isUserFetchB = true := by
  unfold parseComments
  cases h1 : pyIn "comments" data with
  | error e => simp [h1]
  | ok b1 =>
    cases b1 with
    | false => simp [h1]
    | true =>
      cases h2 : pySub data "comments" with
      | error e => simp [h1, h2]
      | ok cd =>
        cases h3 : pyIn "comment" cd with
        | error e => simp [h1, h2, h3]
        | ok b2 =>
          cases b2 with
          | false => simp [h1, h2, h3]
          | true =>
            cases h4 : pySub cd "comment" with
            | error e => simp [h1, h2, h3, h4]
            | ok cl =>
              cases h5 : pyIter cl with
              | error e => simp [h1, h2, h3, h4, h5]
              | ok items =>
                simpa [h1, h2, h3, h4, h5]
                  using commentsLoop_userFetch env items cache

theorem parseFavorites_userFetch (env : Env) (cache : Cache) (data : PyVal) :
    (parseFavorites env cache data).1.all Act.isUserFetchB = true := by
  unfold parseFavorites
  cases h1 : pyIn "photo" data with
  | error e => simp [h1]
  | ok b1 =>
    cases b1 with
    | false => simp [h1]
    | true =>
      cases h2 : pySub data "photo" with
      | error e => simp [h1, h2]
      | ok pd =>
        cases h3 : pyIn "person" pd with
        | error e => simp [h1, h2, h3]
        | ok b2 =>
          cases b2 with
          | false => simp [h1, h2, h3]
          | true =>
            cases h4 : pySub pd "person" with
            | error e => simp [h1, h2, h3, h4]
            | ok pl =>
              cases h5 : pyIter pl with
              | error e => simp [h1, h2, h3, h4, h5]
              | ok items =>
                simpa [h1, h2, h3, h4, h5]
                  using favesLoop_userFetch env items cache

theorem preSizesSafeB_writeFile (n : String) (c : PyVal)
    (h : (n == "sizes.json") = false) :
    preSizesSafeB (Act.writeFile n c) = true := by
  simp [preSizesSafeB, Act.isMarkerB, Act.isDownloadB, Act.writesNameB, h]

/-- Steps 2–8 of the pipeline never write the completion marker, never
attempt a binary download, and never write `sizes.json`. -/
theorem pipePreSizes_safe (env : Env) (photo pid : PyVal) (is_favorite : Bool)
    (cache0 : Cache) :
    (pipePreSizes env photo pid is_favorite cache0).1.all preSizesSafeB = true := by
  have hwm : (("metadata.json" : String) == "sizes.json") = false := by decide
  have hwc : (("comments.json" : String) == "sizes.json") = false := by decide
  have hwf : (("favorites.json" : String) == "sizes.json") = false := by decide
  have hwe : (("exif.json" : String) == "sizes.json") = false := by decide
  unfold pipePreSizes
  cases h1 : get_photo_info env.infoCall with
  | error e => simp [h1, preSizesSafeB, Act.isMarkerB, Act.isDownloadB, Act.writesNameB]
  | ok info =>
    cases h2 : buildMetadata info photo pid is_favorite env.isoFormat with
    | error e => simp [h2, preSizesSafeB, Act.isMarkerB, Act.isDownloadB, Act.writesNameB]
    | ok md0 =>
      cases h3 : buildLocation (get_photo_geo env.geoCall) with
      | error e => simp [h2, h3, preSizesSafeB, Act.isMarkerB, Act.isDownloadB, Act.writesNameB]
      | ok loc =>
        simp only [h3]
        cases h4 : buildAlbums (get_photo_contexts env.contextsCall) with
        | error e => simp [h2, h4, preSizesSafeB, Act.isMarkerB, Act.isDownloadB, Act.writesNameB]
        | ok albums =>
          simp only [h4]
          by_cases hw1 : env.writeFails "metadata.json"
          · simp [h2, hw1, preSizesSafeB, Act.isMarkerB, Act.isDownloadB, Act.writesNameB]
          · simp only [hw1, if_false, Bool.false_eq_true]
            have hcomm := parseComments_userFetch env cache0
              (get_photo_comments env.commentsCall)
            rcases hpc : parseComments env cache0 (get_photo_comments env.commentsCall)
              with ⟨ca, c1, rc⟩
            rw [hpc] at hcomm
            have hcomm' := all_preSizesSafe_of_userFetch _ hcomm
            cases rc with
            | error e =>
              simp_all [preSizesSafeB, Act.isMarkerB, Act.isDownloadB,
                Act.writesNameB, List.all_append]
            | ok comments =>
              by_cases hw2 : env.writeFails "comments.json"
              · simp_all [preSizesSafeB, Act.isMarkerB, Act.isDownloadB,
                  Act.writesNameB, List.all_append]
              · simp only [hw2, if_false, Bool.false_eq_true]
                have hfav := parseFavorites_userFetch env c1
                  (get_photo_favorites env.favoritesCall)
                rcases hpf : parseFavorites env c1 (get_photo_favorites env.favoritesCall)
                  with ⟨fa, c2, rf⟩
                rw [hpf] at hfav
                have hfav' := all_preSizesSafe_of_userFetch _ hfav
                cases rf with
                | error e =>
                  simp_all [preSizesSafeB, Act.isMarkerB, Act.isDownloadB,
                    Act.writesNameB, List.all_append]
                | ok faves =>
                  by_cases hw3 : env.writeFails "favorites.json"
                  · simp_all [preSizesSafeB, Act.isMarkerB, Act.isDownloadB,
                      Act.writesNameB, List.all_append]
                  · simp only [hw3, if_false, Bool.false_eq_true]
                    cases h5 : parseExif (get_photo_exif env.exifCall) with
                    | error e =>
                      simp_all [preSizesSafeB, Act.isMarkerB, Act.isDownloadB,
                        Act.writesNameB, List.all_append]
                    | ok exif =>
                      by_cases hw4 : env.writeFails "exif.json"
                      · simp_all [preSizesSafeB, Act.isMarkerB, Act.isDownloadB,
                          Act.writesNameB, List.all_append]
                      · simp_all [preSizesSafeB, Act.isMarkerB, Act.isDownloadB,
                          Act.writesNameB, List.all_append]

theorem posterDownload_markerFree (slv : PyVal) :
    markerFree (posterDownload slv).1 = true := by
  unfold posterDownload
  by_cases ht : pyTruthy slv
  · simp only [ht, if_true]
    cases h1 : pyIter slv with
    | error e => simp [h1, markerFree]
    | ok items =>
      cases h2 : mapKeys videoKey items with
      | error e => simp [h1, h2, markerFree]
      | ok keyed =>
        cases h3 : firstMaxOpt keyed with
        | none => simp [h1, h2, h3, markerFree]
        | some thumb =>
          cases h4 : pySub thumb "source" with
          | error e => simp [h1, h2, h3, h4, markerFree]
          | ok src => simp [h1, h2, h3, h4, markerFree, Act.isMarkerB]
  · simp [ht, markerFree]

theorem videoBranch_markerFree (env : Env) (md ip : PyVal) :
    markerFree (videoBranch env md ip).1 = true := by
  unfold videoBranch
  cases h1 : videoUrlsOf ip with
  | error e => simp [h1, markerFree]
  | ok vurls =>
    cases h2 : get_photo_sizes env.sizesCall with
    | error e => simp [h1, h2, markerFree, Act.isMarkerB]
    | ok sizes =>
      cases h3 : (do let ss ← pySub sizes "sizes"; pySub ss "size" :
          Except String PyVal) with
      | error e => simp [h1, h2, h3, markerFree, Act.isMarkerB]
      | ok slv =>
        have hp := posterDownload_markerFree slv
        rcases h4 : posterDownload slv with ⟨ta, r⟩
        rw [h4] at hp
        cases r with
        | error e =>
          simp_all [markerFree, Act.isMarkerB]
        | ok u =>
          by_cases hw : env.writeFails "sizes.json"
          · simp_all [markerFree, Act.isMarkerB]
          · simp_all [markerFree, Act.isMarkerB, List.all_append]

theorem photoBranch_markerFree (env : Env) (md : PyVal) :
    markerFree (photoBranch env md).1 = true := by
  unfold photoBranch
  cases h1 : get_photo_sizes env.sizesCall with
  | error e => simp [h1, markerFree, Act.isMarkerB]
  | ok sizes =>
    cases h2 : (do let ss ← pySub sizes "sizes"; pySub ss "size" :
        Except String PyVal) with
    | error e => simp [h1, h2, markerFree, Act.isMarkerB]
    | ok slv =>
      cases h3 : pyIter slv with
      | error e => simp [h1, h2, h3, markerFree, Act.isMarkerB]
      | ok items =>
        cases h4 : selectOriginal items slv with
        | error e => simp [h1, h2, h3, h4, markerFree, Act.isMarkerB]
        | ok oOpt =>
          cases oOpt with
          | none => simp [h1, h2, h3, h4, markerFree, Act.isMarkerB]
          | some o =>
            by_cases ht : pyTruthy o
            · cases h5 : pySub o "source" with
              | error e => simp [h1, h2, h3, h4, h5, ht, markerFree, Act.isMarkerB]
              | ok src =>
                cases src with
                | vStr u =>
                  by_cases hw : env.writeFails "sizes.json" <;>
                    simp_all [markerFree, Act.isMarkerB]
                | vNull => simp_all [markerFree, Act.isMarkerB]
                | vBool b => simp_all [markerFree, Act.isMarkerB]
                | vInt n => simp_all [markerFree, Act.isMarkerB]
                | vList xs => simp_all [markerFree, Act.isMarkerB]
                | vDict xs => simp_all [markerFree, Act.isMarkerB]
            · simp [h1, h2, h3, h4, ht, markerFree, Act.isMarkerB]

theorem sizesStage_markerFree (env : Env) (md info : PyVal) :
    markerFree (sizesStage env md info).1 = true := by
  unfold sizesStage
  cases h1 : pySub info "photo" with
  | error e => simp [h1, markerFree]
  | ok ip =>
    cases h2 : pyGetD ip "media" (PyVal.vStr "photo") with
    | error e => simp [h1, h2, markerFree]
    | ok media =>
      by_cases hv : pyEqB media (PyVal.vStr "video")
      · simpa [h1, h2, hv] using videoBranch_markerFree env md ip
      · simpa [h1, h2, hv] using photoBranch_markerFree env md

theorem markerFree_of_safe (l : List Act) (h : l.all preSizesSafeB = true) :
    markerFree l = true := by
  rw [List.all_eq_true] at h
  rw [markerFree, List.all_eq_true]
  intro a ha
  have := h a ha
  simp [preSizesSafeB] at this
  simp [this.1.1]

theorem noWriteAfterMarker_of_markerFree (l : List Act)
    (h : markerFree l = true) : noWriteAfterMarker l = true := by
  induction l with
  | nil => rfl
  | cons a rest ih =>
    rw [markerFree, List.all_cons] at h
    obtain ⟨h1, h2⟩ := Bool.and_eq_true_iff.mp h
    rw [noWriteAfterMarker]
    have : a.isMarkerB = false := by simpa using h1
    simp [this, ih h2]

theorem noWriteAfterMarker_append_marker (l : List Act) (ts : String)
    (h : markerFree l = true) :
    noWriteAfterMarker (l ++ [Act.writeMarker ts, Act.sleepPost]) = true := by
  induction l with
  | nil =>
    simp [noWriteAfterMarker, Act.isMarkerB, Act.isPersistB]
  | cons a rest ih =>
    rw [markerFree, List.all_cons] at h
    obtain ⟨h1, h2⟩ := Bool.and_eq_true_iff.mp h
    have : a.isMarkerB = false := by simpa using h1
    simp only [List.cons_append, noWriteAfterMarker, this, if_false]
    simp [ih h2]

theorem pipelineBody_markerFree (env : Env) (photo pid : PyVal)
    (is_favorite : Bool) (cache0 : Cache) :
    markerFree (pipelineBody env photo pid is_favorite cache0).1 = true := by
  unfold pipelineBody
  have hpre := markerFree_of_safe _ (pipePreSizes_safe env photo pid is_favorite cache0)
  rcases hb : pipePreSizes env photo pid is_favorite cache0 with ⟨tr, c, r⟩
  rw [hb] at hpre
  cases r with
  | error e => simpa using hpre
  | ok p =>
    obtain ⟨md, info⟩ := p
    have hss := sizesStage_markerFree env md info
    rcases hs : sizesStage env md info with ⟨tr2, r2⟩
    rw [hs] at hss
    cases r2 <;> simp_all [markerFree, List.all_append]

/-- Claim C1: in `process_photo` the completion marker is the last
persistence action of the per-photo unit: whenever the run fails (an
uncaught exception escapes), the trace contains no marker, and in every
trace nothing is persisted after a marker (the marker is only written
once every earlier step has succeeded). -/
theorem process_photo_marker_is_last (env : Env) (photo : PyVal)
    (is_favorite : Bool) (cache0 : Cache) :
    (isOkE (process_photo env photo is_favorite cache0).2.2 = false →
      markerFree (process_photo env photo is_favorite cache0).1 = true)
    ∧ noWriteAfterMarker (process_photo env photo is_favorite cache0).1 = true := by
  unfold process_photo
  cases hid : pySub photo "id" with
  | error e => simp [markerFree, noWriteAfterMarker]
  | ok pid =>
    have hbody := pipelineBody_markerFree env photo pid is_favorite cache0
    cases pid with
    | vStr s =>
      by_cases hm : env.markerExists
      · simp [hm, markerFree, noWriteAfterMarker, Act.isMarkerB]
      · simp only [hm, if_false, Bool.false_eq_true]
        rcases hb : pipelineBody env photo (PyVal.vStr s) is_favorite cache0
          with ⟨tr, c, r⟩
        rw [hb] at hbody
        cases r with
        | error e =>
          constructor
          · intro _
            simpa [markerFree, Act.isMarkerB] using hbody
          · exact noWriteAfterMarker_of_markerFree _
              (by simpa [markerFree, Act.isMarkerB] using hbody)
        | ok u =>
          by_cases hw : env.writeFails "complete.flag"
          · simp only [hw, if_true]
            constructor
            · intro _
              simpa [markerFree, Act.isMarkerB] using hbody
            · exact noWriteAfterMarker_of_markerFree _
                (by simpa [markerFree, Act.isMarkerB] using hbody)
          · simp only [hw, if_false, Bool.false_eq_true]
            constructor
            · intro hfalse
              simp [isOkE] at hfalse
            · show noWriteAfterMarker
                (Act.sleepRate :: (tr ++ [Act.writeMarker env.nowIso, Act.sleepPost])) = true
              rw [noWriteAfterMarker]
              simp only [Act.isMarkerB, if_false]
              simp [noWriteAfterMarker_append_marker tr env.nowIso hbody]
    | vNull => simp [markerFree, noWriteAfterMarker, Act.isMarkerB]
    | vBool b => simp [markerFree, noWriteAfterMarker, Act.isMarkerB]
    | vInt n => simp [markerFree, noWriteAfterMarker, Act.isMarkerB]
    | vList xs => simp [markerFree, noWriteAfterMarker, Act.isMarkerB]
    | vDict xs => simp [markerFree, noWriteAfterMarker, Act.isMarkerB]

theorem process_photo_marker_is_last_witness :
    markerFree (process_photo baseEnv photoW false []).1 = true :=
  (process_photo_marker_is_last baseEnv photoW false []).1 (by rfl)

/-- Claim C2 (code bug): for a video photo the advisory is added to the
in-memory metadata only after `metadata.json` has been written, and the
file is never rewritten — so the persisted metadata record lacks the
`video_info` entry even though the in-memory record (and the code's own
`# Also note in metadata` comment) carries it, and the run still
completes. -/
theorem video_advisory_missing_from_metadata :
    (findWrite (process_photo envVideo photoW false []).1 "metadata.json").isSome = true
    ∧ ((findWrite (process_photo envVideo photoW false []).1 "metadata.json").bind
        (fun m => dictLookup m "video_info")).isNone = true
    ∧ (findWrite (process_photo envVideo photoW false []).1 "sizes.json").isSome = true
    ∧ isOkE (process_photo envVideo photoW false []).2.2 = true
    ∧ ((okMetadataOf (pipelineBody envVideo photoW (PyVal.vStr "12345") false []).2.2).bind
        (fun m => dictLookup m "video_info")).isSome = true :=
  ⟨rfl, rfl, rfl, rfl, rfl⟩

/-- Claim C3 (counterexample): no gateway operation is wrapped in
`retry_on_error`.  On a transport that fails once and then succeeds, the
decorator would recover (one 2s back-off, then success), but
`get_photo_info` propagates the very first failure. -/
theorem gateway_not_wrapped_counterexample :
    retry_on_error flakyOnce = ([2], .ok (PyVal.vInt 1))
    ∧ get_photo_info flakyOnce = .error (.otherExc "boom")
    ∧ get_photo_info flakyOnce ≠ (retry_on_error flakyOnce).2 := by
  refine ⟨rfl, rfl, ?_⟩
  intro h
  rw [show get_photo_info flakyOnce = .error (.otherExc "boom") from rfl,
    show (retry_on_error flakyOnce).2 = .ok (PyVal.vInt 1) from rfl] at h
  exact Except.noConfusion h

/-- Claim C3 (amended): the bounded-retry decorator `retry_on_error` does
retry transient service-unavailable FlickrErrors up to 3 attempts with
linearly increasing back-off (5s then 10s), retries non-FlickrError
exceptions up to 3 attempts with a flat 2s back-off, raises non-transient
FlickrErrors immediately, and propagates the failure after exhausting the
attempts — but it is applied to no gateway function: each gateway
operation performs exactly one transport attempt. -/
theorem retry_behavior_and_unwrapped_gateway
    (v : PyVal) (m1 m2 m3 : String)
    (f1 f2 f3 f4 g : Nat → Except PyExc PyVal)
    (h1 : f1 0 = .ok v)
    (h2 : ∀ n, f2 n = .error (.flickrError m1)) (h2t : isTransientMsg m1 = true)
    (h3 : ∀ n, f3 n = .error (.otherExc m2))
    (h4 : f4 0 = .error (.flickrError m3)) (h4t : isTransientMsg m3 = false) :
    retry_on_error f1 = ([], .ok v)
    ∧ retry_on_error f2 = ([5, 10], .error (.flickrError m1))
    ∧ retry_on_error f3 = ([2, 2], .error (.otherExc m2))
    ∧ retry_on_error f4 = ([], .error (.flickrError m3))
    ∧ get_photo_info g = g 0 ∧ get_photo_sizes g = g 0
    ∧ get_photos g = g 0 ∧ get_favorites g = g 0 ∧ get_photosets g = g 0 := by
  refine ⟨?_, ?_, ?_, ?_, rfl, rfl, rfl, rfl, rfl⟩
  · simp [retry_on_error, retryGo, h1]
  · simp [retry_on_error, retryGo, h2, h2t]
  · simp [retry_on_error, retryGo, h3]
  · simp [retry_on_error, retryGo, h4, h4t]

theorem retry_behavior_and_unwrapped_gateway_witness :
    retry_on_error transientAlways
      = ([5, 10], .error (.flickrError "Error 201: service not available"))
    ∧ get_photo_info flakyOnce = flakyOnce 0 :=
  have h := retry_behavior_and_unwrapped_gateway (PyVal.vInt 1)
    "Error 201: service not available" "boom" "Error 95: bad verifier"
    (fun _ => .ok (PyVal.vInt 1)) transientAlways (fun _ => .error (.otherExc "boom"))
    (fun _ => .error (.flickrError "Error 95: bad verifier")) flakyOnce
    rfl (fun n => rfl) (by decide) (fun n => rfl) rfl (by decide)
  ⟨h.2.1, h.2.2.2.2.1⟩

/-- Claim C4 (counterexample): on failure `get_photo_geo` and
`get_user_info` do not return an empty/default shape — they return `None`
— and their callers do null-check: `process_photo`'s geolocation step
takes the absent branch on that `None`. -/
theorem geo_userinfo_none_counterexample :
    get_photo_geo failCall = PyVal.vNull
    ∧ get_user_info failCall = PyVal.vNull
    ∧ buildLocation (get_photo_geo failCall) = .ok none :=
  ⟨rfl, rfl, rfl⟩

/-- Claim C4 (amended): of the six absence-tolerant operations, four
(comments, favorites, EXIF, contexts) return a documented empty shape on
any failure; geo and user info instead return `None`, which their callers
(`process_photo` and `get_cached_user_info`) null-check. -/
theorem gateway_failure_defaults (f : Nat → Except PyExc PyVal) (e : PyExc)
    (h : f 0 = .error e) :
    get_photo_comments f
      = PyVal.vDict [("comments", PyVal.vDict [("comment", PyVal.vList [])])]
    ∧ get_photo_favorites f
      = PyVal.vDict [("photo", PyVal.vDict [("person", PyVal.vList [])])]
    ∧ get_photo_exif f
      = PyVal.vDict [("photo", PyVal.vDict [("exif", PyVal.vList [])])]
    ∧ get_photo_contexts f = PyVal.vDict [("set", PyVal.vList [])]
    ∧ get_photo_geo f = PyVal.vNull
    ∧ get_user_info f = PyVal.vNull
    ∧ get_photo_stats f = PyVal.vNull := by
  unfold get_photo_comments get_photo_favorites get_photo_exif
    get_photo_contexts get_photo_geo get_user_info get_photo_stats
  rw [h]
  exact ⟨rfl, rfl, rfl, rfl, rfl, rfl, rfl⟩

theorem gateway_failure_defaults_witness :
    get_photo_geo failCall = PyVal.vNull
    ∧ get_user_info failCall = PyVal.vNull
    ∧ get_photo_contexts failCall = PyVal.vDict [("set", PyVal.vList [])] :=
  have h := gateway_failure_defaults failCall (PyExc.otherExc "boom") rfl
  ⟨h.2.2.2.2.1, h.2.2.2.2.2.1, h.2.2.2.1⟩

/-- Claim C5: when the completion marker already exists, `process_photo`
only sleeps, logs and returns — no remote fetch, no file write, cache and
archive state unchanged — and the owned-photos walk skips any photo whose
id is already an archive directory without invoking the pipeline at
all. -/
theorem completed_photo_skipped (env : Env) (photo : PyVal)
    (is_favorite : Bool) (cache0 : Cache) (processedIds : List String)
    (s : String)
    (hid : pySub photo "id" = .ok (PyVal.vStr s))
    (hm : env.markerExists = true) :
    process_photo env photo is_favorite cache0
      = ([Act.sleepRate], cache0, .ok ())
    ∧ (process_photo env photo is_favorite cache0).1.all
        (fun a => !a.isFetchB && !a.isPersistB) = true
    ∧ (processedIds.contains s = true →
        download_my_photos_step processedIds env photo cache0
          = ([], cache0, .ok ())) := by
  have hp : process_photo env photo is_favorite cache0
      = ([Act.sleepRate], cache0, .ok ()) := by
    unfold process_photo
    rw [hid]
    simp [hm]
  refine ⟨hp, ?_, ?_⟩
  · rw [hp]
    rfl
  · intro hc
    unfold download_my_photos_step
    rw [hid]
    have hmem : s ∈ processedIds := by simpa using hc
    simp [hmem]

theorem completed_photo_skipped_witness :
    download_my_photos_step ["12345"] envMarker photoW [] = ([], [], .ok ()) :=
  (completed_photo_skipped envMarker photoW false [] ["12345"] "12345"
    rfl rfl).2.2 (by rfl)

theorem findOriginal_found (sl : List PyVal)
    (hlab : sl.all (fun s => exOk (pySub s "label")) = true)
    (hany : sl.any hasOriginalLabelB = true) :
    ∃ o, findOriginal sl = .ok (some o) ∧ hasOriginalLabelB o = true := by
  induction sl with
  | nil => simp at hany
  | cons s rest ih =>
    rw [List.all_cons] at hlab
    obtain ⟨hl1, hl2⟩ := Bool.and_eq_true_iff.mp hlab
    rw [List.any_cons] at hany
    unfold findOriginal
    cases hsub : pySub s "label" with
    | error e => rw [hsub] at hl1; simp [exOk] at hl1
    | ok l =>
      by_cases ho : pyEqB l (PyVal.vStr "Original") = true
      · refine ⟨s, by simp [hsub, ho], ?_⟩
        simp [hasOriginalLabelB, hsub, ho]
      · have hs : hasOriginalLabelB s = false := by
          simp [hasOriginalLabelB, hsub]
          simpa using ho
        rw [hs] at hany
        simp only [Bool.false_or] at hany
        obtain ⟨o, hfind, horig⟩ := ih hl2 hany
        refine ⟨o, ?_, horig⟩
        simp only [hsub]
        simp [ho, hfind]

theorem findOriginal_none (sl : List PyVal)
    (hlab : sl.all (fun s => exOk (pySub s "label")) = true)
    (hno : sl.all (fun s => !hasOriginalLabelB s) = true) :
    findOriginal sl = .ok none := by
  induction sl with
  | nil => rfl
  | cons s rest ih =>
    rw [List.all_cons] at hlab hno
    obtain ⟨hl1, hl2⟩ := Bool.and_eq_true_iff.mp hlab
    obtain ⟨hn1, hn2⟩ := Bool.and_eq_true_iff.mp hno
    unfold findOriginal
    cases hsub : pySub s "label" with
    | error e => rw [hsub] at hl1; simp [exOk] at hl1
    | ok l =>
      have heq : pyEqB l (PyVal.vStr "Original") = false := by
        rw [hasOriginalLabelB, hsub] at hn1
        simpa using hn1
      simp [heq, ih hl2 hn2]

theorem mapKeys_ok (key : PyVal → Except String Int) (sl : List PyVal)
    (h : sl.all (fun s => exOk (key s)) = true) :
    ∃ keyed, mapKeys key sl = .ok keyed
      ∧ keyed.map Prod.fst = sl
      ∧ ∀ p ∈ keyed, key p.1 = .ok p.2 := by
  induction sl with
  | nil => exact ⟨[], rfl, rfl, by simp⟩
  | cons s rest ih =>
    rw [List.all_cons] at h
    obtain ⟨h1, h2⟩ := Bool.and_eq_true_iff.mp h
    cases hk : key s with
    | error e => rw [hk] at h1; simp [exOk] at h1
    | ok k =>
      obtain ⟨ks, hks, hmap, hprop⟩ := ih h2
      refine ⟨(s, k) :: ks, ?_, by simp [hmap], ?_⟩
      · unfold mapKeys
        rw [hk, hks]
      · intro p hp
        rcases List.mem_cons.mp hp with hh | hh
        · subst hh; exact hk
        · exact hprop p hh

theorem firstMaxGo_spec (l : List (PyVal × Int)) :
    ∀ best bk, ∃ rk : Int,
      ((firstMaxGo best bk l = best ∧ rk = bk) ∨ (firstMaxGo best bk l, rk) ∈ l)
      ∧ bk ≤ rk ∧ ∀ p ∈ l, p.2 ≤ rk := by
  induction l with
  | nil =>
    intro best bk
    exact ⟨bk, Or.inl ⟨rfl, rfl⟩, le_refl bk, by simp⟩
  | cons a rest ih =>
    intro best bk
    obtain ⟨a1, k1⟩ := a
    by_cases hlt : bk < k1
    · obtain ⟨rk, hm, hle, hall⟩ := ih a1 k1
      have hres : firstMaxGo best bk ((a1, k1) :: rest) = firstMaxGo a1 k1 rest := by
        show (if bk < k1 then firstMaxGo a1 k1 rest else firstMaxGo best bk rest)
          = firstMaxGo a1 k1 rest
        rw [if_pos hlt]
      refine ⟨rk, ?_, le_of_lt (lt_of_lt_of_le hlt hle), ?_⟩
      · right
        rw [hres]
        rcases hm with ⟨he, hr⟩ | hmem
        · rw [he, hr]; exact List.mem_cons_self _ _
        · exact List.mem_cons_of_mem _ hmem
      · intro p hp
        rcases List.mem_cons.mp hp with hh | hh
        · subst hh; exact hle
        · exact hall p hh
    · obtain ⟨rk, hm, hle, hall⟩ := ih best bk
      have hres : firstMaxGo best bk ((a1, k1) :: rest) = firstMaxGo best bk rest := by
        show (if bk < k1 then firstMaxGo a1 k1 rest else firstMaxGo best bk rest)
          = firstMaxGo best bk rest
        rw [if_neg hlt]
      have hk1 : k1 ≤ bk := le_of_not_lt hlt
      refine ⟨rk, ?_, hle, ?_⟩
      · rw [hres]
        rcases hm with ⟨he, hr⟩ | hmem
        · exact Or.inl ⟨he, hr⟩
        · exact Or.inr (List.mem_cons_of_mem _ hmem)
      · intro p hp
        rcases List.mem_cons.mp hp with hh | hh
        · subst hh; exact le_trans hk1 hle
        · exact hall p hh

/-- Claim C6: the non-video selection picks a size labeled `Original`
whenever one is present (regardless of other sizes' widths — including an
Original after a wider non-Original entry), and otherwise picks the size
with the largest declared width; with no Original and widths
[800, 1200, 400] it selects the 1200-width size, and a size with no
`width` key gets sort key 0. -/
theorem original_size_selection
    (sl1 sl2 : List PyVal)
    (h1lab : sl1.all (fun s => exOk (pySub s "label")) = true)
    (h1any : sl1.any hasOriginalLabelB = true)
    (h2lab : sl2.all (fun s => exOk (pySub s "label")) = true)
    (h2no : sl2.all (fun s => !hasOriginalLabelB s) = true)
    (h2w : sl2.all (fun s => exOk (nonVideoKey s)) = true)
    (h2ne : sl2 ≠ []) :
    (∃ o, selectOriginal sl1 (PyVal.vList sl1) = .ok (some o)
      ∧ hasOriginalLabelB o = true)
    ∧ (∃ o k, selectOriginal sl2 (PyVal.vList sl2) = .ok (some o) ∧ o ∈ sl2
        ∧ nonVideoKey o = .ok k
        ∧ ∀ s ∈ sl2, ∀ j, nonVideoKey s = .ok j → j ≤ k)
    ∧ selectOriginal exampleSizes (PyVal.vList exampleSizes) = .ok (some exSize1200)
    ∧ selectOriginal originalSizes (PyVal.vList originalSizes)
        = .ok (some (PyVal.vDict [("label", PyVal.vStr "Original"),
            ("width", PyVal.vInt 1024)]))
    ∧ nonVideoKey (PyVal.vDict []) = .ok 0 := by
  refine ⟨?_, ?_, rfl, rfl, rfl⟩
  · obtain ⟨o, hfind, horig⟩ := findOriginal_found sl1 h1lab h1any
    refine ⟨o, ?_, horig⟩
    unfold selectOriginal
    rw [hfind]
  · have hfn := findOriginal_none sl2 h2lab h2no
    have htr : pyTruthy (PyVal.vList sl2) = true := by
      cases sl2 with
      | nil => exact absurd rfl h2ne
      | cons a l => rfl
    obtain ⟨keyed, hks, hmap, hprop⟩ := mapKeys_ok nonVideoKey sl2 h2w
    cases hkd : keyed with
    | nil =>
      rw [hkd] at hmap
      exact absurd hmap.symm (by simpa using h2ne)
    | cons hd tl =>
      obtain ⟨a1, k1⟩ := hd
      obtain ⟨rk, hm, hle, hall⟩ := firstMaxGo_spec tl a1 k1
      have hmemk : (firstMaxGo a1 k1 tl, rk) ∈ keyed := by
        rw [hkd]
        rcases hm with ⟨he, hr⟩ | hmem
        · rw [he, hr]; exact List.mem_cons_self _ _
        · exact List.mem_cons_of_mem _ hmem
      refine ⟨firstMaxGo a1 k1 tl, rk, ?_, ?_, ?_, ?_⟩
      · unfold selectOriginal
        rw [hfn, htr]
        simp only [if_true]
        rw [hks, hkd]
        rfl
      · rw [← hmap]
        exact List.mem_map_of_mem Prod.fst hmemk
      · exact hprop _ hmemk
      · intro s hs j hj
        rw [← hmap] at hs
        obtain ⟨p, hp, hps⟩ := List.mem_map.mp hs
        have hpk := hprop p hp
        rw [hps, hj] at hpk
        have hj2 : j = p.2 := Except.ok.inj hpk
        rw [hj2]
        rw [hkd] at hp
        rcases List.mem_cons.mp hp with hh | hh
        · rw [hh]; exact hle
        · exact hall p hh

theorem original_size_selection_witness :
    selectOriginal exampleSizes (PyVal.vList exampleSizes)
      = .ok (some exSize1200) :=
  (original_size_selection originalSizes exampleSizes rfl rfl rfl rfl rfl
    (by simp [exampleSizes])).2.2.1

/-- Claim C7 (counterexample): the code splits on the last `.` of the whole
URL (query string included) and only then cuts at `?`; the spec's rule
(strip the query string, then read the final path segment's extension)
disagrees whenever the query string contains a dot.  On
`.../123_o.png?a=b.tar` the code yields `jpg` while the claimed rule
yields `png`. -/
theorem ext_parse_counterexample :
    extFromUrl "https://live.staticflickr.com/123_o.png?a=b.tar" = "jpg"
    ∧ extFromUrlSpecWords "https://live.staticflickr.com/123_o.png?a=b.tar" = "png"
    ∧ extFromUrl "https://live.staticflickr.com/123_o.png?a=b.tar"
        ≠ extFromUrlSpecWords "https://live.staticflickr.com/123_o.png?a=b.tar" := by
  refine ⟨by decide, by decide, ?_⟩
  intro h
  rw [show extFromUrl "https://live.staticflickr.com/123_o.png?a=b.tar" = "jpg"
      from by decide,
    show extFromUrlSpecWords "https://live.staticflickr.com/123_o.png?a=b.tar" = "png"
      from by decide] at h
  exact absurd h (by decide)

theorem isAllowedExt_cases (e : List Char) (h : isAllowedExt e = true) :
    e = "jpg".toList ∨ e = "jpeg".toList ∨ e = "png".toList ∨ e = "gif".toList := by
  unfold isAllowedExt at h
  split_ifs at h with h1 h2 h3 h4
  · exact Or.inl h1
  · exact Or.inr (Or.inl h2)
  · exact Or.inr (Or.inr (Or.inl h3))
  · exact Or.inr (Or.inr (Or.inr h4))

/-- Claim C7 (amended): the extension is the text after the last `.` of the
whole URL, truncated at the first `?` (not the query-stripped final path
segment); it is constrained to {jpg, jpeg, png, gif} with jpg as the
default, the whitelisted raw token is kept verbatim, and the spec's two
examples hold. -/
theorem ext_parse_amended (url url2 : String)
    (hallow : isAllowedExt (rawExtOf url) = true)
    (hdis : isAllowedExt (rawExtOf url2) = false) :
    extFromUrl url = String.mk (rawExtOf url)
    ∧ extFromUrl url2 = "jpg"
    ∧ (extFromUrl url = "jpg" ∨ extFromUrl url = "jpeg"
        ∨ extFromUrl url = "png" ∨ extFromUrl url = "gif")
    ∧ extFromUrl "https://www.flickr.com/photos/123_abcdef_o.webp?x=1" = "jpg"
    ∧ extFromUrl "https://www.flickr.com/photos/123_o.png" = "png" := by
  have key : ∀ u : String,
      extFromUrl u = if isAllowedExt (rawExtOf u) then String.mk (rawExtOf u)
        else "jpg" := fun u => rfl
  have h1 : extFromUrl url = String.mk (rawExtOf url) := by
    rw [key, if_pos hallow]
  refine ⟨h1, ?_, ?_, by decide, by decide⟩
  · rw [key, if_neg (by simp [hdis])]
  · rcases isAllowedExt_cases (rawExtOf url) hallow with h | h | h | h <;>
      rw [h] at h1
    · exact Or.inl h1
    · exact Or.inr (Or.inl h1)
    · exact Or.inr (Or.inr (Or.inl h1))
    · exact Or.inr (Or.inr (Or.inr h1))

theorem ext_parse_amended_witness :
    extFromUrl "https://www.flickr.com/photos/123_o.png"
      = String.mk (rawExtOf "https://www.flickr.com/photos/123_o.png")
    ∧ extFromUrl "https://www.flickr.com/photos/123_abcdef_o.webp?x=1" = "jpg" :=
  have h := ext_parse_amended "https://www.flickr.com/photos/123_o.png"
    "https://www.flickr.com/photos/123_abcdef_o.webp?x=1" (by decide) (by decide)
  ⟨h.1, h.2.1⟩

/-- Claim C8 (counterexample): the `stats.favorites` field is
`int(isfavorite)` — the self-favorite flag — not the favorite count.  For
a photo the caller has not favorited (`isfavorite = 0`) that two users
favorited, the persisted `metadata.json` carries `stats.favorites = 0`
while `favorites.json` lists 2 favoriting users. -/
theorem stats_favorites_flag_counterexample :
    statsFavoritesOf (process_photo env8 photoW false []).1 = some (PyVal.vInt 0)
    ∧ favoritesCountOf (process_photo env8 photoW false []).1 = some 2
    ∧ statsFavoritesOf (process_photo env8 photoW false []).1
        ≠ some (PyVal.vInt 2) := by
  refine ⟨rfl, rfl, ?_⟩
  intro h
  rw [show statsFavoritesOf (process_photo env8 photoW false []).1
      = some (PyVal.vInt 0) from rfl] at h
  have h2 := PyVal.vInt.inj (Option.some.inj h)
  exact absurd h2 (by decide)

theorem exceptBind_ok {α β : Type} (a : α) (g : α → Except String β) :
    ((Except.ok a : Except String α) >>= g) = g a := rfl

theorem exceptBind_error {α β : Type} (e : String) (g : α → Except String β) :
    ((Except.error e : Except String α) >>= g) = Except.error e := rfl

theorem exceptPure {α : Type} (a : α) :
    (pure a : Except String α) = Except.ok a := rfl

theorem dictEntriesGet_setEntry_ne (d : List (String × PyVal))
    (k k' : String) (v : PyVal) (hne : k ≠ k') :
    dictEntriesGet (setEntry d k v) k' = dictEntriesGet d k' := by
  induction d with
  | nil => simp [setEntry, dictEntriesGet, hne]
  | cons p rest ih =>
    obtain ⟨k0, v0⟩ := p
    by_cases h0 : k0 = k
    · subst h0
      simp [setEntry, dictEntriesGet, hne]
    · simp [setEntry, dictEntriesGet, h0, ih]

theorem dictLookup_dictSet_ne (d : PyVal) (k k' : String) (v : PyVal)
    (hne : k ≠ k') : dictLookup (dictSet d k v) k' = dictLookup d k' := by
  cases d <;> simp [dictSet, dictLookup]
  exact dictEntriesGet_setEntry_ne _ _ _ _ hne

theorem safe_trace_any (l : List Act) (h : l.all preSizesSafeB = true) :
    l.any Act.isDownloadB = false
    ∧ l.any (Act.writesNameB "sizes.json") = false
    ∧ l.any Act.isMarkerB = false := by
  rw [List.all_eq_true] at h
  refine ⟨?_, ?_, ?_⟩
  · cases hA : l.any Act.isDownloadB with
    | false => rfl
    | true =>
      obtain ⟨a, ha, hp⟩ := List.any_eq_true.mp hA
      have := h a ha
      simp [preSizesSafeB, hp] at this
  · cases hA : l.any (Act.writesNameB "sizes.json") with
    | false => rfl
    | true =>
      obtain ⟨a, ha, hp⟩ := List.any_eq_true.mp hA
      have := h a ha
      simp [preSizesSafeB, hp] at this
  · cases hA : l.any Act.isMarkerB with
    | false => rfl
    | true =>
      obtain ⟨a, ha, hp⟩ := List.any_eq_true.mp hA
      have := h a ha
      simp [preSizesSafeB, hp] at this

/-- Claim C9: for a non-video photo whose fetched size list is empty, the
run raises no error and completes: no binary download is attempted, no
`sizes.json` is written, yet the completion marker is still written — an
archive unit considered complete may lack a sizes file. -/
theorem empty_sizes_still_completes (env : Env) (photo : PyVal)
    (is_favorite : Bool) (cache0 : Cache) (tr0 : List Act) (c0 : Cache)
    (md info ip media : PyVal) (s : String)
    (hid : pySub photo "id" = .ok (PyVal.vStr s))
    (hm : env.markerExists = false)
    (hpre : pipePreSizes env photo (PyVal.vStr s) is_favorite cache0
      = (tr0, c0, .ok (md, info)))
    (hip : pySub info "photo" = .ok ip)
    (hmedia : pyGetD ip "media" (PyVal.vStr "photo") = .ok media)
    (hnv : pyEqB media (PyVal.vStr "video") = false)
    (hsz : env.sizesCall 0 = .ok emptySizesResp)
    (hwf : env.writeFails "complete.flag" = false) :
    process_photo env photo is_favorite cache0
      = (Act.sleepRate :: (tr0 ++ [Act.fetchSizes, Act.writeMarker env.nowIso,
          Act.sleepPost]), c0, .ok ())
    ∧ (process_photo env photo is_favorite cache0).1.any Act.isDownloadB = false
    ∧ (process_photo env photo is_favorite cache0).1.any
        (Act.writesNameB "sizes.json") = false
    ∧ (process_photo env photo is_favorite cache0).1.any Act.isMarkerB = true := by
  have hps : photoBranch env md = ([Act.fetchSizes], .ok md) := by
    unfold photoBranch get_photo_sizes
    rw [hsz]
    rfl
  have hss : sizesStage env md info = ([Act.fetchSizes], .ok md) := by
    unfold sizesStage
    simp [hip, hmedia, hnv, hps]
  have hpb : pipelineBody env photo (PyVal.vStr s) is_favorite cache0
      = (tr0 ++ [Act.fetchSizes], c0, .ok md) := by
    unfold pipelineBody
    rw [hpre]
    simp [hss]
  have hp : process_photo env photo is_favorite cache0
      = (Act.sleepRate :: (tr0 ++ [Act.fetchSizes, Act.writeMarker env.nowIso,
          Act.sleepPost]), c0, .ok ()) := by
    unfold process_photo
    rw [hid]
    simp [hm, hpb, hwf]
  have hsafe := pipePreSizes_safe env photo (PyVal.vStr s) is_favorite cache0
  rw [hpre] at hsafe
  obtain ⟨hd, hw, hmk⟩ := safe_trace_any tr0 hsafe
  refine ⟨hp, ?_, ?_, ?_⟩ <;> rw [hp] <;>
    simp [List.any_cons, List.any_append, hd, hw, hmk, Act.isDownloadB,
      Act.writesNameB, Act.isMarkerB]

theorem empty_sizes_still_completes_witness :
    (process_photo env9 photoW false []).1.any Act.isMarkerB = true
    ∧ (process_photo env9 photoW false []).1.any Act.isDownloadB = false :=
  have h := empty_sizes_still_completes env9 photoW false []
    (pipePreSizes env9 photoW (PyVal.vStr "12345") false []).1
    (pipePreSizes env9 photoW (PyVal.vStr "12345") false []).2.1
    (preOkMd (pipePreSizes env9 photoW (PyVal.vStr "12345") false []).2.2)
    (preOkInfo (pipePreSizes env9 photoW (PyVal.vStr "12345") false []).2.2)
    (PyVal.vDict []) (PyVal.vStr "photo") "12345"
    rfl rfl rfl rfl rfl rfl rfl rfl
  ⟨h.2.2.2, h.2.1⟩

/-- Claim C10 (counterexample): the video branch's key
`int(s.get('width') or 0)` is not total either — a present non-numeric,
non-empty string width (e.g. `"abc"`) is truthy, so `int()` raises there
too, and a video run with such a size aborts; the non-video key raises on
a `None` width as the claim says. -/
theorem video_width_key_raises_counterexample :
    videoKey (PyVal.vDict [("width", PyVal.vStr "abc")]) = .error "ValueError"
    ∧ nonVideoKey (PyVal.vDict [("width", PyVal.vNull)]) = .error "TypeError"
    ∧ isOkE (process_photo envV10 photoW false []).2.2 = false :=
  ⟨rfl, rfl, rfl⟩

/-- Claim C10 (amended): the non-video key `int(s.get('width', 0))` is total
exactly when a present width is an integer or an integer-valued string; a
present `None` (or a non-numeric string) makes it raise.  The video key
`int(s.get('width') or 0)` additionally tolerates `None` (and a missing or
empty-string width) as 0 — but a present non-numeric, non-empty string
width makes both keys raise. -/
theorem width_key_totality (n m : Int) (s1 s2 : String)
    (hs1 : pyIntOfStr s1 = some m)
    (hs2 : pyIntOfStr s2 = none) (hs2ne : s2 ≠ "") :
    nonVideoKey (PyVal.vDict []) = .ok 0
    ∧ videoKey (PyVal.vDict []) = .ok 0
    ∧ nonVideoKey (PyVal.vDict [("width", PyVal.vInt n)]) = .ok n
    ∧ videoKey (PyVal.vDict [("width", PyVal.vInt n)]) = .ok n
    ∧ nonVideoKey (PyVal.vDict [("width", PyVal.vStr s1)]) = .ok m
    ∧ videoKey (PyVal.vDict [("width", PyVal.vStr s1)]) = .ok m
    ∧ nonVideoKey (PyVal.vDict [("width", PyVal.vNull)]) = .error "TypeError"
    ∧ videoKey (PyVal.vDict [("width", PyVal.vNull)]) = .ok 0
    ∧ nonVideoKey (PyVal.vDict [("width", PyVal.vStr s2)]) = .error "ValueError"
    ∧ videoKey (PyVal.vDict [("width", PyVal.vStr s2)]) = .error "ValueError" := by
  have hs1ne : s1 ≠ "" := by
    intro he
    rw [he] at hs1
    exact Option.noConfusion (hs1.symm.trans rfl)
  refine ⟨rfl, rfl, rfl, ?_, ?_, ?_, rfl, rfl, ?_, ?_⟩
  · unfold videoKey
    simp only [pyGet, pyGetD, dictEntriesGet]
    by_cases hz : n = 0
    · subst hz; rfl
    · have ht : pyTruthy (PyVal.vInt n) = true := by
        simp [pyTruthy, hz]
      simp [ht, pyInt]
  · unfold nonVideoKey
    simp only [pyGetD, dictEntriesGet]
    simp [pyInt, hs1]
  · unfold videoKey
    simp only [pyGet, pyGetD, dictEntriesGet]
    have ht : pyTruthy (PyVal.vStr s1) = true := by
      simp [pyTruthy, hs1ne]
    simp [ht, pyInt, hs1]
  · unfold nonVideoKey
    simp only [pyGetD, dictEntriesGet]
    simp [pyInt, hs2]
  · unfold videoKey
    simp only [pyGet, pyGetD, dictEntriesGet]
    have ht : pyTruthy (PyVal.vStr s2) = true := by
      simp [pyTruthy, hs2ne]
    simp [ht, pyInt, hs2]

theorem width_key_totality_witness :
    nonVideoKey (PyVal.vDict [("width", PyVal.vStr "12")]) = .ok 12
    ∧ videoKey (PyVal.vDict [("width", PyVal.vStr "abc")]) = .error "ValueError" :=
  have h := width_key_totality 7 12 "12" "abc" rfl rfl (by decide)
  ⟨h.2.2.2.2.1, h.2.2.2.2.2.2.2.2.2⟩

theorem buildMetadata_stats (info photo pid md : PyVal) (is_favorite : Bool)
    (isoFormat : Int → String) (ip vv co cc fv : PyVal) (nv nc nf : Int)
    (h : buildMetadata info photo pid is_favorite isoFormat = .ok md)
    (hip : pySub info "photo" = .ok ip)
    (hv : pyGetD ip "views" (PyVal.vInt 0) = .ok vv) (hnv : pyInt vv = .ok nv)
    (hc : pyGetD ip "comments" (PyVal.vDict []) = .ok co)
    (hcc : pyGetD co "_content" (PyVal.vInt 0) = .ok cc) (hnc : pyInt cc = .ok nc)
    (hf : pyGetD ip "isfavorite" (PyVal.vInt 0) = .ok fv) (hnf : pyInt fv = .ok nf) :
    dictLookup md "stats"
      = some (PyVal.vDict [("views", PyVal.vInt nv), ("comments", PyVal.vInt nc),
          ("favorites", PyVal.vInt nf)]) := by
  simp only [buildMetadata, hip, hv, hnv, hc, hcc, hnc, hf, hnf,
    exceptBind_ok] at h
  cases s1 : pyGetD ip "title" (PyVal.vDict []) with
  | error e => simp only [s1, exceptBind_error] at h; exact Except.noConfusion h
  | ok titleO =>
  simp only [s1, exceptBind_ok] at h
  cases s2 : pyGetD titleO "_content" (PyVal.vStr "") with
  | error e => simp only [s2, exceptBind_error] at h; exact Except.noConfusion h
  | ok title =>
  simp only [s2, exceptBind_ok] at h
  cases s3 : pyGetD ip "description" (PyVal.vDict []) with
  | error e => simp only [s3, exceptBind_error] at h; exact Except.noConfusion h
  | ok descO =>
  simp only [s3, exceptBind_ok] at h
  cases s4 : pyGetD descO "_content" (PyVal.vStr "") with
  | error e => simp only [s4, exceptBind_error] at h; exact Except.noConfusion h
  | ok desc =>
  simp only [s4, exceptBind_ok] at h
  cases s5 : pyGetD ip "dateuploaded" (PyVal.vStr "") with
  | error e => simp only [s5, exceptBind_error] at h; exact Except.noConfusion h
  | ok dateUp =>
  simp only [s5, exceptBind_ok] at h
  cases s6 : pyGet ip "dateuploaded" with
  | error e => simp only [s6, exceptBind_error] at h; exact Except.noConfusion h
  | ok dupC =>
  simp only [s6, exceptBind_ok] at h
  by_cases hb : pyTruthy dupC = true
  · simp only [hb, if_true] at h
    cases s7 : pyGetD ip "dateuploaded" (PyVal.vInt 0) with
    | error e => simp only [s7, exceptBind_error] at h; exact Except.noConfusion h
    | ok raw =>
    simp only [s7, exceptBind_ok] at h
    cases s8 : pyInt raw with
    | error e => simp only [s8, exceptBind_error] at h; exact Except.noConfusion h
    | ok nfmt =>
    simp only [s8, exceptBind_ok, exceptPure, exceptBind_ok] at h
    cases s9 : pyGetD ip "dates" (PyVal.vDict []) with
    | error e => simp only [s9, exceptBind_error] at h; exact Except.noConfusion h
    | ok datesO =>
    simp only [s9, exceptBind_ok] at h
    cases s10 : pyGetD datesO "taken" (PyVal.vStr "") with
    | error e => simp only [s10, exceptBind_error] at h; exact Except.noConfusion h
    | ok taken =>
    simp only [s10, exceptBind_ok] at h
    cases s11 : pyGetD ip "tags" (PyVal.vDict []) with
    | error e => simp only [s11, exceptBind_error] at h; exact Except.noConfusion h
    | ok tagsO =>
    simp only [s11, exceptBind_ok] at h
    cases s12 : pyGetD tagsO "tag" (PyVal.vList []) with
    | error e => simp only [s12, exceptBind_error] at h; exact Except.noConfusion h
    | ok tagL =>
    simp only [s12, exceptBind_ok] at h
    cases s13 : pyIter tagL with
    | error e => simp only [s13, exceptBind_error] at h; exact Except.noConfusion h
    | ok tagItems =>
    simp only [s13, exceptBind_ok] at h
    cases s14 : tagsRaw tagItems with
    | error e => simp only [s14, exceptBind_error] at h; exact Except.noConfusion h
    | ok tags =>
    simp only [s14, exceptBind_ok] at h
    cases s15 : pyGetD ip "owner" (PyVal.vDict []) with
    | error e => simp only [s15, exceptBind_error] at h; exact Except.noConfusion h
    | ok owner =>
    simp only [s15, exceptBind_ok] at h
    cases s16 : pyGetD ip "urls" (PyVal.vDict []) with
    | error e => simp only [s16, exceptBind_error] at h; exact Except.noConfusion h
    | ok urlsO =>
    simp only [s16, exceptBind_ok] at h
    cases s17 : pyGetD urlsO "url" (PyVal.vList []) with
    | error e => simp only [s17, exceptBind_error] at h; exact Except.noConfusion h
    | ok urls =>
    simp only [s17, exceptBind_ok] at h
    cases s18 : pyGetD ip "media" (PyVal.vStr "photo") with
    | error e => simp only [s18, exceptBind_error] at h; exact Except.noConfusion h
    | ok media =>
    simp only [s18, exceptBind_ok] at h
    cases is_favorite with
    | false =>
      simp only [Bool.false_eq_true, if_false, exceptPure] at h
      have hmd := Except.ok.inj h
      subst hmd
      rfl
    | true =>
      simp only [if_true] at h
      cases s19 : pyGetD photo "ownername" (PyVal.vStr "") with
      | error e => simp only [s19, exceptBind_error] at h; exact Except.noConfusion h
      | ok ownName =>
      simp only [s19, exceptBind_ok, exceptPure] at h
      have hmd := Except.ok.inj h
      subst hmd
      rfl
  · simp only [hb, if_false, exceptPure, exceptBind_ok] at h
    cases s9 : pyGetD ip "dates" (PyVal.vDict []) with
    | error e => simp only [s9, exceptBind_error] at h; exact Except.noConfusion h
    | ok datesO =>
    simp only [s9, exceptBind_ok] at h
    cases s10 : pyGetD datesO "taken" (PyVal.vStr "") with
    | error e => simp only [s10, exceptBind_error] at h; exact Except.noConfusion h
    | ok taken =>
    simp only [s10, exceptBind_ok] at h
    cases s11 : pyGetD ip "tags" (PyVal.vDict []) with
    | error e => simp only [s11, exceptBind_error] at h; exact Except.noConfusion h
    | ok tagsO =>
    simp only [s11, exceptBind_ok] at h
    cases s12 : pyGetD tagsO "tag" (PyVal.vList []) with
    | error e => simp only [s12, exceptBind_error] at h; exact Except.noConfusion h
    | ok tagL =>
    simp only [s12, exceptBind_ok] at h
    cases s13 : pyIter tagL with
    | error e => simp only [s13, exceptBind_error] at h; exact Except.noConfusion h
    | ok tagItems =>
    simp only [s13, exceptBind_ok] at h
    cases s14 : tagsRaw tagItems with
    | error e => simp only [s14, exceptBind_error] at h; exact Except.noConfusion h
    | ok tags =>
    simp only [s14, exceptBind_ok] at h
    cases s15 : pyGetD ip "owner" (PyVal.vDict []) with
    | error e => simp only [s15, exceptBind_error] at h; exact Except.noConfusion h
    | ok owner =>
    simp only [s15, exceptBind_ok] at h
    cases s16 : pyGetD ip "urls" (PyVal.vDict []) with
    | error e => simp only [s16, exceptBind_error] at h; exact Except.noConfusion h
    | ok urlsO =>
    simp only [s16, exceptBind_ok] at h
    cases s17 : pyGetD urlsO "url" (PyVal.vList []) with
    | error e => simp only [s17, exceptBind_error] at h; exact Except.noConfusion h
    | ok urls =>
    simp only [s17, exceptBind_ok] at h
    cases s18 : pyGetD ip "media" (PyVal.vStr "photo") with
    | error e => simp only [s18, exceptBind_error] at h; exact Except.noConfusion h
    | ok media =>
    simp only [s18, exceptBind_ok] at h
    cases is_favorite with
    | false =>
      simp only [Bool.false_eq_true, if_false, exceptPure] at h
      have hmd := Except.ok.inj h
      subst hmd
      rfl
    | true =>
      simp only [if_true] at h
      cases s19 : pyGetD photo "ownername" (PyVal.vStr "") with
      | error e => simp only [s19, exceptBind_error] at h; exact Except.noConfusion h
      | ok ownName =>
      simp only [s19, exceptBind_ok, exceptPure] at h
      have hmd := Except.ok.inj h
      subst hmd
      rfl

theorem pipePreSizes_ok_inv (env : Env) (photo pid : PyVal) (is_favorite : Bool)
    (cache0 : Cache) (tr0 : List Act) (c0 : Cache) (md info : PyVal)
    (h : pipePreSizes env photo pid is_favorite cache0 = (tr0, c0, .ok (md, info))) :
    get_photo_info env.infoCall = .ok info
    ∧ findWrite tr0 "metadata.json" = some md
    ∧ ∃ md0, buildMetadata info photo pid is_favorite env.isoFormat = .ok md0
        ∧ dictLookup md "stats" = dictLookup md0 "stats" := by
  unfold pipePreSizes at h
  cases h1 : get_photo_info env.infoCall with
  | error e => simp only [h1] at h; simp at h
  | ok info0 =>
  simp only [h1] at h
  cases h2 : buildMetadata info0 photo pid is_favorite env.isoFormat with
  | error e => simp only [h2] at h; simp at h
  | ok md0 =>
  simp only [h2] at h
  cases h3 : buildLocation (get_photo_geo env.geoCall) with
  | error e => simp only [h3] at h; simp at h
  | ok loc =>
  simp only [h3] at h
  cases h4 : buildAlbums (get_photo_contexts env.contextsCall) with
  | error e => simp only [h4] at h; simp at h
  | ok albums =>
  simp only [h4] at h
  by_cases hw1 : env.writeFails "metadata.json" = true
  · rw [if_pos hw1] at h
    simp at h
  · rw [if_neg hw1] at h
    rcases hpc : parseComments env cache0 (get_photo_comments env.commentsCall)
      with ⟨ca, c1, rc⟩
    rw [hpc] at h
    cases rc with
    | error e => simp at h
    | ok comments =>
    simp only [] at h
    by_cases hw2 : env.writeFails "comments.json" = true
    · rw [if_pos hw2] at h
      simp at h
    · rw [if_neg hw2] at h
      rcases hpf : parseFavorites env c1 (get_photo_favorites env.favoritesCall)
        with ⟨fa, c2, rf⟩
      rw [hpf] at h
      cases rf with
      | error e => simp at h
      | ok faves =>
      simp only [] at h
      by_cases hw3 : env.writeFails "favorites.json" = true
      · rw [if_pos hw3] at h
        simp at h
      · rw [if_neg hw3] at h
        cases h5 : parseExif (get_photo_exif env.exifCall) with
        | error e => simp only [h5] at h; simp at h
        | ok exif =>
        simp only [h5] at h
        by_cases hw4 : env.writeFails "exif.json" = true
        · rw [if_pos hw4] at h
          simp at h
        · rw [if_neg hw4] at h
          injection h with htr hrest
          injection hrest with hc0 hok
          have hmi := Except.ok.inj hok
          injection hmi with hmd hinfo
          subst hinfo
          subst hmd
          subst htr
          refine ⟨rfl, ?_, md0, h2, ?_⟩
          · simp only [List.cons_append, List.nil_append, List.append_assoc]
            rfl
          · cases loc with
            | some l =>
              rw [dictLookup_dictSet_ne _ "albums" "stats" _ (by decide),
                dictLookup_dictSet_ne _ "location" "stats" _ (by decide)]
            | none =>
              rw [dictLookup_dictSet_ne _ "albums" "stats" _ (by decide)]

/-- Claim C8 (amended): for every photo record the pipeline persists — any
environment, any successful run — the embedded Stats sub-record of the
written `metadata.json` is exactly the view count `int(views)`, the
comment count `int(comments._content)`, and — in its `favorites` field —
`int(isfavorite)`, the self-favorite flag, not the number of users who
favorited the photo. -/
theorem stats_fields_general (env : Env) (photo pid : PyVal)
    (is_favorite : Bool) (cache0 : Cache) (tr0 : List Act) (c0 : Cache)
    (md info ip vv co cc fv : PyVal) (nv nc nf : Int)
    (hpre : pipePreSizes env photo pid is_favorite cache0
      = (tr0, c0, .ok (md, info)))
    (hip : pySub info "photo" = .ok ip)
    (hv : pyGetD ip "views" (PyVal.vInt 0) = .ok vv) (hnv : pyInt vv = .ok nv)
    (hc : pyGetD ip "comments" (PyVal.vDict []) = .ok co)
    (hcc : pyGetD co "_content" (PyVal.vInt 0) = .ok cc) (hnc : pyInt cc = .ok nc)
    (hf : pyGetD ip "isfavorite" (PyVal.vInt 0) = .ok fv) (hnf : pyInt fv = .ok nf) :
    findWrite tr0 "metadata.json" = some md
    ∧ dictLookup md "stats"
        = some (PyVal.vDict [("views", PyVal.vInt nv), ("comments", PyVal.vInt nc),
            ("favorites", PyVal.vInt nf)]) := by
  obtain ⟨hinfo, hfw, md0, hbm, hstats⟩ :=
    pipePreSizes_ok_inv env photo pid is_favorite cache0 tr0 c0 md info hpre
  refine ⟨hfw, ?_⟩
  rw [hstats]
  exact buildMetadata_stats info photo pid md0 is_favorite env.isoFormat
    ip vv co cc fv nv nc nf hbm hip hv hnv hc hcc hnc hf hnf

theorem stats_fields_general_witness :
    dictLookup (preOkMd (pipePreSizes env8 photoW (PyVal.vStr "12345")
        false []).2.2) "stats"
      = some (PyVal.vDict [("views", PyVal.vInt 5), ("comments", PyVal.vInt 1),
          ("favorites", PyVal.vInt 0)]) :=
  (stats_fields_general env8 photoW (PyVal.vStr "12345") false []
    (pipePreSizes env8 photoW (PyVal.vStr "12345") false []).1
    (pipePreSizes env8 photoW (PyVal.vStr "12345") false []).2.1
    (preOkMd (pipePreSizes env8 photoW (PyVal.vStr "12345") false []).2.2)
    (preOkInfo (pipePreSizes env8 photoW (PyVal.vStr "12345") false []).2.2)
    (PyVal.vDict [("views", PyVal.vStr "5"),
      ("comments", PyVal.vDict [("_content", PyVal.vStr "1")]),
      ("isfavorite", PyVal.vInt 0)])
    (PyVal.vStr "5") (PyVal.vDict [("_content", PyVal.vStr "1")])
    (PyVal.vStr "1") (PyVal.vInt 0) 5 1 0
    rfl rfl rfl rfl rfl rfl rfl rfl rfl).2
